import Mathlib

/-!
OpenEVSE_Lib: the RAPI protocol client (`src/openevse.cpp`, `src/openevse.h`).

A shallow embedding of `OpenEVSEClass` and of the C library routines its
decoding relies on, followed by theorems about connection negotiation, the
query operations, the mutating operations, the channel guard and the event
handler.

Conventions of the embedding.

* Target data model: the library includes `<Arduino.h>` and `<functional>`,
  i.e. the 32-bit Arduino cores; `int` and `long` are 32 bits wide
  (`INT_MAX = LONG_MAX = 2^31 - 1`), `uint8_t` and `uint32_t` conversions
  reduce modulo `2^8` and `2^32`, and `int` arithmetic and the conversion of
  a scanned number to `int` wrap (reduction modulo `2^32` into the range of
  `int`).
* A C string is a `List Char`; a token that is absent is `none` (the C
  code passes `NULL`).
* A command completion is a `Reply`: the result code handed to the
  completion lambda together with the tokens `getToken`/`getTokenCnt`
  expose at that moment.
* A query maps the client and the reply to the arguments its callback is
  invoked with; `none` means the callback is not invoked. The methods in the
  namespace `OpenEVSEClass` add the command submitted: a `Step` lists the
  commands handed to `sendCmd` and the callback invocations.
* `double` outputs are modelled by the exact rational quotient.
-/

namespace OpenEVSE

/-! ## C library: `isspace`, `strtol`, `sscanf("%d.%d.%d")` -/

abbrev CString := List Char

def LONG_MAX : Int := 2147483647

def LONG_MIN : Int := -2147483648

/-- Conversion of a C integer to `uint8_t`. -/
def toUInt8 (x : Int) : Nat := (x % 256).toNat

/-- Conversion of a C integer to `uint32_t`. -/
def toUInt32 (x : Int) : Nat := (x % 4294967296).toNat

/-- Reduction of an integer into the range of `int`, modulo `2^32`: what a
wrapping `int` operation or a conversion to `int` yields. -/
def toInt32 (x : Int) : Int := (x + 2147483648) % 4294967296 - 2147483648

/-- The `isspace` predicate of the C locale. -/
def isspace (c : Char) : Bool :=
  c == ' ' || c == '\t' || c == '\n' || c == '\x0b' || c == '\x0c' || c == '\r'

/-- Value of a character as a digit (letters count from 10), as `strtol` reads it. -/
def digitVal (c : Char) : Option Nat :=
  if '0' ≤ c ∧ c ≤ '9' then some (c.toNat - '0'.toNat)
  else if 'a' ≤ c ∧ c ≤ 'z' then some (c.toNat - 'a'.toNat + 10)
  else if 'A' ≤ c ∧ c ≤ 'Z' then some (c.toNat - 'A'.toNat + 10)
  else none

def skipSpace : CString → CString
  | [] => []
  | c :: cs => if isspace c then skipSpace cs else c :: cs

/-- Optional sign in front of a number: whether it is negative, and the rest. -/
def scanSign : CString → Bool × CString
  | '-' :: cs => (true, cs)
  | '+' :: cs => (false, cs)
  | cs => (false, cs)

/-- The digit loop of `strtol`: accumulated value, whether any digit was
consumed, and the unread rest. -/
def scanDigits (base : Nat) : Nat → Bool → CString → Nat × Bool × CString
  | acc, any, [] => (acc, any, [])
  | acc, any, c :: cs =>
    match digitVal c with
    | some d => if d < base then scanDigits base (acc * base + d) true cs else (acc, any, c :: cs)
    | none => (acc, any, c :: cs)

/-- Out-of-range results are replaced by `LONG_MAX` / `LONG_MIN`. -/
def clampLong (x : Int) : Int :=
  if x > LONG_MAX then LONG_MAX else if x < LONG_MIN then LONG_MIN else x

/-- Optional `0x` / `0X` prefix accepted by `strtol` in base 16. -/
def skipHexMarker (base : Nat) : CString → CString
  | '0' :: 'x' :: cs => if base = 16 then cs else '0' :: 'x' :: cs
  | '0' :: 'X' :: cs => if base = 16 then cs else '0' :: 'X' :: cs
  | cs => cs

/-- The call `strtol(s, NULL, base)`: leading white space, an optional sign, an
optional `0x` in base 16, then the longest run of digits; `0` when there is
no digit; whatever follows the digits is ignored. -/
def strtol (s : CString) (base : Nat) : Int :=
  let p := scanSign (skipSpace s)
  let r := scanDigits base 0 false (skipHexMarker base p.2)
  clampLong (if p.1 then -(r.1 : Int) else (r.1 : Int))

/-- One `%d` conversion of `sscanf`: leading white space, an optional sign and
at least one decimal digit; the value stored in the `int` (the number read,
converted to `int`) and the unread rest, or `none` on a matching failure. -/
def scanfInt (s : CString) : Option (Int × CString) :=
  let p := scanSign (skipSpace s)
  match scanDigits 10 0 false p.2 with
  | (acc, true, rest) => some (toInt32 (if p.1 then -(acc : Int) else (acc : Int)), rest)
  | (_, false, _) => none

/-- The call `sscanf(s, "%d.%d.%d", &major, &minor, &patch)`: the values
assigned, in order; the return value of `sscanf` is the length of the list. -/
def sscanf_d_d_d (s : CString) : List Int :=
  match scanfInt s with
  | none => []
  | some (a, r1) =>
    match r1 with
    | '.' :: r2 =>
      match scanfInt r2 with
      | none => [a]
      | some (b, r3) =>
        match r3 with
        | '.' :: r4 =>
          match scanfInt r4 with
          | none => [a, b]
          | some (c, _) => [a, b, c]
        | _ => [a, b]
    | _ => [a]

/-! ## `openevse.h` -/

def OPENEVSE_STATE_INVALID : Int := -1

/-- The macro `OPENEVSE_ENCODE_VERSION(a,b,c)` on `int` operands: the value of
the `int` expression, which wraps when the sum leaves the range of `int`. -/
def OPENEVSE_ENCODE_VERSION (a b c : Int) : Int :=
  toInt32 (((a) * 1000) + ((b) * 100) + (c))

def OPENEVSE_OCPP_SUPPORT_PROTOCOL_VERSION : Int := OPENEVSE_ENCODE_VERSION 5 0 0

/-- Modelled from the spec: the result codes of `RapiSender.h`, which is not part
of the sources. The client only compares codes for equality with the named
ones; `other` stands for every remaining channel-level code (timeout, bad
checksum, ...). -/
inductive RapiResponse where
  | OK
  | NK
  | INVALID_RESPONSE
  | FEATURE_NOT_SUPPORTED
  | other (code : Int)
  deriving DecidableEq, Repr

open RapiResponse

/-- What the channel hands to a completion lambda: the result code and the
tokens of the reply line (token 0 is the reply kind). -/
structure Reply where
  ret : RapiResponse
  tokens : List CString
  deriving DecidableEq, Repr

/-- Modelled from the spec: `RapiSender::getTokenCnt`. -/
def Reply.getTokenCnt (r : Reply) : Nat := r.tokens.length

/-- Modelled from the spec: `RapiSender::getToken`; `none` is the `NULL` of an
absent token. -/
def Reply.getToken (r : Reply) (i : Nat) : Option CString := r.tokens.get? i

/-- The data members of `OpenEVSEClass`. `_sender` records whether a
`RapiSender` is bound; an observer slot holds the identity of the
registered handler. -/
structure OpenEVSEClass where
  _sender : Bool
  _connected : Bool
  _protocol : Nat
  _boot : Option Nat
  _state : Option Nat
  _wifi : Option Nat
  _button : Option Nat
  deriving DecidableEq, Repr

/-- The constructor `OpenEVSEClass::OpenEVSEClass()`. -/
def OpenEVSEClass.new : OpenEVSEClass :=
  { _sender := false
    _connected := false
    _protocol := toUInt32 (OPENEVSE_ENCODE_VERSION 1 0 0)
    _boot := none
    _state := none
    _wifi := none
    _button := none }

def OpenEVSEClass.isConnected (s : OpenEVSEClass) : Bool := s._connected

/-- `strtol` applied to a token pointer; the operations only do so below a
token-count check, an absent token reads as `0` here. -/
def tokenLong (r : Reply) (i : Nat) (base : Nat) : Int :=
  match r.getToken i with
  | some t => strtol t base
  | none => 0

/-! ## `getVersion` and `begin` -/

structure VersionResult where
  ret : RapiResponse
  firmware : Option CString
  protocol : Option CString
  deriving DecidableEq, Repr

def getVersion (s : OpenEVSEClass) (r : Reply) : Option VersionResult :=
  if !s._sender then none
  else if r.ret = OK then
    if r.getTokenCnt ≥ 3 then
      some ⟨OK, r.getToken 1, r.getToken 2⟩
    else
      some ⟨INVALID_RESPONSE, none, none⟩
  else
    some ⟨r.ret, none, none⟩

structure BeginResult where
  connected : Bool
  firmware : Option CString
  protocol : Option CString
  deriving DecidableEq, Repr

/-- The completion lambda `begin` passes to `getVersion`. It reads `protocol`
only when `ret` is OK, and `getVersion` reports OK only with both strings
present; a `NULL` there reads as the empty string. -/
def beginCompletion (s : OpenEVSEClass) (v : VersionResult) : OpenEVSEClass × BeginResult :=
  let s1 :=
    if v.ret = OK then
      match sscanf_d_d_d (v.protocol.getD []) with
      | [major, minor, patch] =>
        { s with _protocol := toUInt32 (OPENEVSE_ENCODE_VERSION major minor patch)
                 _connected := true }
      | _ => s
    else s
  (s1, ⟨s1._connected, v.firmware, v.protocol⟩)

/-- The three-argument `OpenEVSEClass::begin`, with the completion of its
`$GV` query: the client afterwards and the arguments of the callback. -/
def begin (s : OpenEVSEClass) (r : Reply) : OpenEVSEClass × Option BeginResult :=
  let s0 := { s with _connected := false, _sender := true }
  match getVersion s0 r with
  | none => (s0, none)
  | some v =>
    let p := beginCompletion s0 v
    (p.1, some p.2)

/-- The decimal rendering of a version triple, `a.b.c`. -/
def versionString (a b c : Nat) : CString :=
  Nat.toDigits 10 a ++ '.' :: (Nat.toDigits 10 b ++ '.' :: Nat.toDigits 10 c)

/-! ## Query operations -/

structure StatusResult where
  ret : RapiResponse
  evse_state : Nat
  session_time : Nat
  pilot_state : Nat
  vflags : Nat
  deriving DecidableEq, Repr

def getStatus (s : OpenEVSEClass) (r : Reply) : Option StatusResult :=
  if !s._sender then none
  else if r.ret = OK then
    let tokens_required := if (s._protocol : Int) < OPENEVSE_OCPP_SUPPORT_PROTOCOL_VERSION then 3 else 5
    let state_base := if (s._protocol : Int) < OPENEVSE_OCPP_SUPPORT_PROTOCOL_VERSION then 10 else 16
    if r.getTokenCnt ≥ tokens_required then
      let evse_state := toUInt8 (tokenLong r 1 state_base)
      let elapsed := toUInt32 (tokenLong r 2 10)
      if (s._protocol : Int) ≥ OPENEVSE_OCPP_SUPPORT_PROTOCOL_VERSION then
        let pilot_state := toUInt8 (tokenLong r 3 state_base)
        let vflags := toUInt32 (tokenLong r 4 16)
        some ⟨OK, evse_state, elapsed, pilot_state, vflags⟩
      else
        some ⟨OK, evse_state, elapsed, toUInt8 OPENEVSE_STATE_INVALID, 0⟩
    else
      some ⟨INVALID_RESPONSE, toUInt8 OPENEVSE_STATE_INVALID, 0, toUInt8 OPENEVSE_STATE_INVALID, 0⟩
  else
    some ⟨r.ret, toUInt8 OPENEVSE_STATE_INVALID, 0, toUInt8 OPENEVSE_STATE_INVALID, 0⟩

/-- The fields of `struct tm` that `getTime` fills in (the others are zeroed). -/
structure Tm where
  tm_year : Int
  tm_mon : Int
  tm_mday : Int
  tm_hour : Int
  tm_min : Int
  tm_sec : Int
  deriving DecidableEq, Repr

structure TimeResult where
  ret : RapiResponse
  time : Int
  deriving DecidableEq, Repr

/-- `OpenEVSEClass::getTime`; the C library's `mktime` is a parameter. -/
def getTime (mktime : Tm → Int) (s : OpenEVSEClass) (r : Reply) : Option TimeResult :=
  if !s._sender then none
  else if r.ret = OK then
    if r.getTokenCnt ≥ 7 then
      let year := tokenLong r 1 10
      let month := tokenLong r 2 10
      let day := tokenLong r 3 10
      let hour := tokenLong r 4 10
      let minute := tokenLong r 5 10
      let second := tokenLong r 6 10
      if 165 ≠ year ∧ 165 ≠ month ∧ 165 ≠ day ∧ 165 ≠ hour ∧ 165 ≠ minute ∧ 85 ≠ second then
        some ⟨OK, mktime ⟨100 + year, month, day, hour, minute, second⟩⟩
      else
        some ⟨FEATURE_NOT_SUPPORTED, 0⟩
    else
      some ⟨INVALID_RESPONSE, 0⟩
  else
    some ⟨r.ret, 0⟩

structure ChargeResult where
  ret : RapiResponse
  amps : ℚ
  volts : ℚ
  deriving DecidableEq, Repr

def getChargeCurrentAndVoltage (s : OpenEVSEClass) (r : Reply) : Option ChargeResult :=
  if !s._sender then none
  else if r.ret = OK then
    if r.getTokenCnt ≥ 3 then
      let milliAmps := tokenLong r 1 10
      let milliVolts := tokenLong r 2 10
      some ⟨r.ret, (milliAmps : ℚ) / 1000, (milliVolts : ℚ) / 1000⟩
    else
      some ⟨INVALID_RESPONSE, 0, 0⟩
  else
    some ⟨r.ret, 0, 0⟩

structure TemperatureResult where
  ret : RapiResponse
  temp1 : ℚ
  temp1_valid : Bool
  temp2 : ℚ
  temp2_valid : Bool
  temp3 : ℚ
  temp3_valid : Bool
  deriving DecidableEq, Repr

def getTemperature (s : OpenEVSEClass) (r : Reply) : Option TemperatureResult :=
  if !s._sender then none
  else if r.ret = OK then
    if r.getTokenCnt ≥ 4 then
      let temp1 := tokenLong r 1 10
      let temp2 := tokenLong r 2 10
      let temp3 := tokenLong r 3 10
      some ⟨r.ret, (temp1 : ℚ) / 10, decide (-2560 ≠ temp1), (temp2 : ℚ) / 10,
        decide (-2560 ≠ temp2), (temp3 : ℚ) / 10, decide (-2560 ≠ temp3)⟩
    else
      some ⟨INVALID_RESPONSE, 0, false, 0, false, 0, false⟩
  else
    some ⟨r.ret, 0, false, 0, false, 0, false⟩

structure EnergyResult where
  ret : RapiResponse
  session_wh : ℚ
  total_kwh : ℚ
  deriving DecidableEq, Repr

def getEnergy (s : OpenEVSEClass) (r : Reply) : Option EnergyResult :=
  if !s._sender then none
  else if r.ret = OK then
    if r.getTokenCnt ≥ 3 then
      let wattseconds := tokenLong r 1 10
      let whacc := tokenLong r 2 10
      some ⟨r.ret, (wattseconds : ℚ) / 3600, (whacc : ℚ) / 1000⟩
    else
      some ⟨INVALID_RESPONSE, 0, 0⟩
  else
    some ⟨r.ret, 0, 0⟩

structure FaultCountersResult where
  ret : RapiResponse
  gfci_count : Int
  nognd_count : Int
  stuck_count : Int
  deriving DecidableEq, Repr

def getFaultCounters (s : OpenEVSEClass) (r : Reply) : Option FaultCountersResult :=
  if !s._sender then none
  else if r.ret = OK then
    if r.getTokenCnt ≥ 4 then
      let gfci_count := tokenLong r 1 16
      let nognd_count := tokenLong r 2 16
      let stuck_count := tokenLong r 3 16
      some ⟨r.ret, gfci_count, nognd_count, stuck_count⟩
    else
      some ⟨INVALID_RESPONSE, 0, 0, 0⟩
  else
    some ⟨r.ret, 0, 0, 0⟩

structure SettingsResult where
  ret : RapiResponse
  pilot : Int
  flags : Nat
  deriving DecidableEq, Repr

def getSettings (s : OpenEVSEClass) (r : Reply) : Option SettingsResult :=
  if !s._sender then none
  else if r.ret = OK then
    if r.getTokenCnt ≥ 3 then
      let pilot := tokenLong r 1 10
      let flags := tokenLong r 2 16
      some ⟨r.ret, pilot, toUInt32 flags⟩
    else
      some ⟨INVALID_RESPONSE, 0, 0⟩
  else
    some ⟨r.ret, 0, 0⟩

structure SerialResult where
  ret : RapiResponse
  serial : Option CString
  deriving DecidableEq, Repr

/-- The loop `while(' ' == *val) val++`. -/
def skipBlanks : CString → CString
  | [] => []
  | c :: cs => if ' ' = c then skipBlanks cs else c :: cs

def getSerial (s : OpenEVSEClass) (r : Reply) : Option SerialResult :=
  if !s._sender then none
  else if r.ret = OK then
    if r.getTokenCnt ≥ 2 then
      some ⟨r.ret, (r.getToken 1).map skipBlanks⟩
    else
      some ⟨INVALID_RESPONSE, none⟩
  else
    some ⟨r.ret, none⟩

/-- The arguments of the `getCurrentCapacity` callback, named as the
callback's parameters are declared:
`(ret, min_current, pilot, max_configured_current, max_hardware_current)`. -/
structure CurrentCapacityResult where
  ret : RapiResponse
  min_current : Int
  pilot : Int
  max_configured_current : Int
  max_hardware_current : Int
  deriving DecidableEq, Repr

def getCurrentCapacity (s : OpenEVSEClass) (r : Reply) : Option CurrentCapacityResult :=
  if !s._sender then none
  else if r.ret = OK then
    if r.getTokenCnt ≥ 5 then
      let min_current := tokenLong r 1 10
      let max_hardware_current := tokenLong r 2 10
      let pilot := tokenLong r 3 10
      let max_configured_current := tokenLong r 4 10
      some ⟨r.ret, min_current, max_hardware_current, pilot, max_configured_current⟩
    else
      some ⟨INVALID_RESPONSE, 0, 0, 0, 0⟩
  else
    some ⟨r.ret, 0, 0, 0, 0⟩

structure AmmeterSettingsResult where
  ret : RapiResponse
  scale : Int
  offset : Int
  deriving DecidableEq, Repr

def getAmmeterSettings (s : OpenEVSEClass) (r : Reply) : Option AmmeterSettingsResult :=
  if !s._sender then none
  else if r.ret = OK then
    if r.getTokenCnt ≥ 3 then
      let scale := tokenLong r 1 10
      let offset := tokenLong r 2 10
      some ⟨r.ret, scale, offset⟩
    else
      some ⟨INVALID_RESPONSE, 0, 0⟩
  else
    some ⟨r.ret, 0, 0⟩

structure TimerResult where
  ret : RapiResponse
  start_hour : Int
  start_minute : Int
  end_hour : Int
  end_minute : Int
  deriving DecidableEq, Repr

def getTimer (s : OpenEVSEClass) (r : Reply) : Option TimerResult :=
  if !s._sender then none
  else if r.ret = OK then
    if r.getTokenCnt ≥ 5 then
      let starthr := tokenLong r 1 10
      let startmin := tokenLong r 2 10
      let endhr := tokenLong r 3 10
      let endmin := tokenLong r 4 10
      some ⟨r.ret, starthr, startmin, endhr, endmin⟩
    else
      some ⟨INVALID_RESPONSE, 0, 0, 0, 0⟩
  else
    some ⟨r.ret, 0, 0, 0, 0⟩

/-! ## Submitting commands -/

/-- What one call of an operation amounts to: the data members afterwards, the
commands handed to `RapiSender::sendCmd` in order, and the invocations of
the caller's callback in order. -/
structure Step (α : Type) where
  client : OpenEVSEClass
  sent : List CString
  calls : List α
  deriving DecidableEq, Repr

/-- The frame shared by the operations, `if (!_sender) return;` followed by
`_sender->sendCmd(command, completion)`: without a sender nothing happens;
with one the command is submitted and the completion lambda runs once, on
the reply of that command. -/
def sendCmd {α : Type} (s : OpenEVSEClass) (command : CString) (completion : Option α) : Step α :=
  if !s._sender then ⟨s, [], []⟩ else ⟨s, [command], completion.toList⟩

/-- The conversions `%d` and `%ld` of `snprintf`. -/
def fmtInt (n : Int) : CString :=
  if n < 0 then '-' :: Nat.toDigits 10 n.natAbs else Nat.toDigits 10 n.toNat

/-- The conversion `%u` of `snprintf`. -/
def fmtUInt (n : Nat) : CString := Nat.toDigits 10 n

/-- The call `snprintf(command, size, ...)` on the fully formatted text: at most
`size - 1` characters are stored. -/
def snprintf (size : Nat) (text : CString) : CString := text.take (size - 1)

/-! ## The queries as operations -/

def OpenEVSEClass.getVersion (s : OpenEVSEClass) (r : Reply) : Step VersionResult :=
  sendCmd s "$GV".toList (OpenEVSE.getVersion s r)

def OpenEVSEClass.getStatus (s : OpenEVSEClass) (r : Reply) : Step StatusResult :=
  sendCmd s "$GS".toList (OpenEVSE.getStatus s r)

def OpenEVSEClass.getTime (mktime : Tm → Int) (s : OpenEVSEClass) (r : Reply) : Step TimeResult :=
  sendCmd s "$GT".toList (OpenEVSE.getTime mktime s r)

def OpenEVSEClass.getChargeCurrentAndVoltage (s : OpenEVSEClass) (r : Reply) : Step ChargeResult :=
  sendCmd s "$GG".toList (OpenEVSE.getChargeCurrentAndVoltage s r)

def OpenEVSEClass.getTemperature (s : OpenEVSEClass) (r : Reply) : Step TemperatureResult :=
  sendCmd s "$GP".toList (OpenEVSE.getTemperature s r)

def OpenEVSEClass.getEnergy (s : OpenEVSEClass) (r : Reply) : Step EnergyResult :=
  sendCmd s "$GU".toList (OpenEVSE.getEnergy s r)

def OpenEVSEClass.getFaultCounters (s : OpenEVSEClass) (r : Reply) : Step FaultCountersResult :=
  sendCmd s "$GF".toList (OpenEVSE.getFaultCounters s r)

def OpenEVSEClass.getSettings (s : OpenEVSEClass) (r : Reply) : Step SettingsResult :=
  sendCmd s "$GE".toList (OpenEVSE.getSettings s r)

def OpenEVSEClass.getSerial (s : OpenEVSEClass) (r : Reply) : Step SerialResult :=
  sendCmd s "$GI".toList (OpenEVSE.getSerial s r)

def OpenEVSEClass.getCurrentCapacity (s : OpenEVSEClass) (r : Reply) :
    Step CurrentCapacityResult :=
  sendCmd s "$GC".toList (OpenEVSE.getCurrentCapacity s r)

def OpenEVSEClass.getAmmeterSettings (s : OpenEVSEClass) (r : Reply) :
    Step AmmeterSettingsResult :=
  sendCmd s "$GA".toList (OpenEVSE.getAmmeterSettings s r)

def OpenEVSEClass.getTimer (s : OpenEVSEClass) (r : Reply) : Step TimerResult :=
  sendCmd s "$GD".toList (OpenEVSE.getTimer s r)

/-! ## Mutating operations -/

/-- The completion lambda of `setTime`, `setVoltage` and `setTimer`. -/
def ackCompletion (r : Reply) : RapiResponse :=
  if r.ret = OK then
    if r.getTokenCnt ≥ 1 then OK else INVALID_RESPONSE
  else r.ret

/-- The completion lambda `[this, callback](int ret) { callback(ret); }`. -/
def forwardCompletion (r : Reply) : RapiResponse := r.ret

/-- `OpenEVSEClass::setTime(tm &time, ...)`. -/
def OpenEVSEClass.setTime_tm (s : OpenEVSEClass) (time : Tm) (r : Reply) : Step RapiResponse :=
  sendCmd s
    (snprintf 64 ("$S1 ".toList ++ fmtInt (Int.tmod time.tm_year 100) ++ ' ' ::
      fmtInt (time.tm_mon + 1) ++ ' ' :: fmtInt time.tm_mday ++ ' ' :: fmtInt time.tm_hour
      ++ ' ' :: fmtInt time.tm_min ++ ' ' :: fmtInt time.tm_sec))
    (some (ackCompletion r))

/-- `OpenEVSEClass::setTime(time_t time, ...)`; the C library's `gmtime_r` is a
parameter. -/
def OpenEVSEClass.setTime (gmtime_r : Int → Tm) (s : OpenEVSEClass) (time : Int) (r : Reply) :
    Step RapiResponse :=
  s.setTime_tm (gmtime_r time) r

def OpenEVSEClass.setServiceLevel (s : OpenEVSEClass) (level : Nat) (r : Reply) :
    Step RapiResponse :=
  sendCmd s (snprintf 8 ("$SL ".toList ++ [Char.ofNat level])) (some (forwardCompletion r))

structure PilotResult where
  ret : RapiResponse
  pilot : Int
  deriving DecidableEq, Repr

/-- The completion lambda of `setCurrentCapacity`. -/
def setCurrentCapacityCompletion (r : Reply) : PilotResult :=
  if r.ret = OK ∨ r.ret = NK then
    if r.getTokenCnt ≥ 2 then
      let pilot := tokenLong r 1 10
      ⟨r.ret, pilot⟩
    else
      ⟨INVALID_RESPONSE, 0⟩
  else
    ⟨r.ret, 0⟩

def OpenEVSEClass.setCurrentCapacity (s : OpenEVSEClass) (amps : Int) (save : Bool) (r : Reply) :
    Step PilotResult :=
  sendCmd s
    (snprintf 64 ("$SC ".toList ++ fmtInt amps ++ (if save then "".toList else " V".toList)))
    (some (setCurrentCapacityCompletion r))

/-- The completion lambda of `setAmmeterSettings`. -/
def setAmmeterSettingsCompletion (r : Reply) : RapiResponse :=
  if r.ret = OK then
    if r.getTokenCnt ≥ 2 then r.ret else INVALID_RESPONSE
  else r.ret

def OpenEVSEClass.setAmmeterSettings (s : OpenEVSEClass) (scale offset : Int) (r : Reply) :
    Step RapiResponse :=
  sendCmd s (snprintf 64 ("$SA ".toList ++ fmtInt scale ++ ' ' :: fmtInt offset))
    (some (setAmmeterSettingsCompletion r))

/-- `OpenEVSEClass::setVoltage(uint32_t milliVolts, ...)`. -/
def OpenEVSEClass.setVoltage (s : OpenEVSEClass) (milliVolts : Nat) (r : Reply) :
    Step RapiResponse :=
  sendCmd s (snprintf 64 ("$SV ".toList ++ fmtUInt milliVolts)) (some (ackCompletion r))

/-- The C library's `round`: to the nearest integer, halfway cases away from
zero. -/
def cround (x : ℚ) : Int := if 0 ≤ x then ⌊x + 1 / 2⌋ else -⌊-x + 1 / 2⌋

/-- `OpenEVSEClass::setVoltage(double volts, ...)`. -/
def OpenEVSEClass.setVoltage_volts (s : OpenEVSEClass) (volts : ℚ) (r : Reply) :
    Step RapiResponse :=
  s.setVoltage (toUInt32 (cround (volts * 1000))) r

def OpenEVSEClass.setTimer (s : OpenEVSEClass) (start_hour start_minute end_hour end_minute : Int)
    (r : Reply) : Step RapiResponse :=
  sendCmd s
    (snprintf 64 ("$ST ".toList ++ fmtInt start_hour ++ ' ' :: fmtInt start_minute ++ ' ' ::
      fmtInt end_hour ++ ' ' :: fmtInt end_minute))
    (some (ackCompletion r))

def OpenEVSEClass.clearTimer (s : OpenEVSEClass) (r : Reply) : Step RapiResponse :=
  s.setTimer 0 0 0 0 r

def OpenEVSEClass.enable (s : OpenEVSEClass) (r : Reply) : Step RapiResponse :=
  sendCmd s "$FE".toList (some (forwardCompletion r))

def OpenEVSEClass.sleep (s : OpenEVSEClass) (r : Reply) : Step RapiResponse :=
  sendCmd s "$FS".toList (some (forwardCompletion r))

def OpenEVSEClass.disable (s : OpenEVSEClass) (r : Reply) : Step RapiResponse :=
  sendCmd s "$FD".toList (some (forwardCompletion r))

def OpenEVSEClass.restart (s : OpenEVSEClass) (r : Reply) : Step RapiResponse :=
  sendCmd s "$FR".toList (some (forwardCompletion r))

def OpenEVSEClass.clearBootLock (s : OpenEVSEClass) (r : Reply) : Step RapiResponse :=
  sendCmd s "$SB".toList (some (forwardCompletion r))

def OpenEVSEClass.feature (s : OpenEVSEClass) (feature : Nat) (enable : Bool) (r : Reply) :
    Step RapiResponse :=
  sendCmd s
    (snprintf 64 ("$FF ".toList ++ Char.ofNat feature :: ' ' :: fmtInt (if enable then 1 else 0)))
    (some (forwardCompletion r))

def OpenEVSEClass.lcdEnable (s : OpenEVSEClass) (enable : Bool) (r : Reply) : Step RapiResponse :=
  sendCmd s (snprintf 64 ("$F0 ".toList ++ fmtInt (if enable then 1 else 0)))
    (some (forwardCompletion r))

def OpenEVSEClass.lcdSetColour (s : OpenEVSEClass) (colour : Int) (r : Reply) :
    Step RapiResponse :=
  sendCmd s (snprintf 64 ("$FB ".toList ++ fmtInt colour)) (some (forwardCompletion r))

def OPENEVSE_LCD_SPACE_MAGIC_CHAR : Char := Char.ofNat 0xFE

/-- The loop of `lcdDisplayText` over the characters of `command`, with the
current value of `expected_spaces`: the counter is decremented at each
space, and the space is overwritten once the counter is negative. -/
def replaceSpaces : Int → CString → CString
  | _, [] => []
  | expected_spaces, c :: cs =>
    if c = ' ' then
      if expected_spaces - 1 < 0 then
        OPENEVSE_LCD_SPACE_MAGIC_CHAR :: replaceSpaces (expected_spaces - 1) cs
      else
        c :: replaceSpaces (expected_spaces - 1) cs
    else
      c :: replaceSpaces expected_spaces cs

def OpenEVSEClass.lcdDisplayText (s : OpenEVSEClass) (x y : Int) (text : CString) (r : Reply) :
    Step RapiResponse :=
  sendCmd s
    (replaceSpaces 3 (snprintf 64 ("$FP ".toList ++ fmtInt x ++ ' ' :: fmtInt y ++ ' ' :: text)))
    (some (forwardCompletion r))

structure HeartbeatResult where
  ret : RapiResponse
  interval : Int
  current : Int
  triggered : Int
  deriving DecidableEq, Repr

/-- The completion lambda of `heartbeatEnable`. -/
def heartbeatEnableCompletion (r : Reply) : HeartbeatResult :=
  if r.ret = OK then
    if r.getTokenCnt ≥ 4 then
      let interval := tokenLong r 1 10
      let current := tokenLong r 2 10
      let triggered := tokenLong r 3 10
      ⟨r.ret, interval, current, triggered⟩
    else
      ⟨INVALID_RESPONSE, 0, 0, 0⟩
  else
    ⟨r.ret, 0, 0, 0⟩

def OpenEVSEClass.heartbeatEnable (s : OpenEVSEClass) (interval current : Int) (r : Reply) :
    Step HeartbeatResult :=
  sendCmd s (snprintf 64 ("$SY ".toList ++ fmtInt interval ++ ' ' :: fmtInt current))
    (some (heartbeatEnableCompletion r))

/-- `OpenEVSEClass::heartbeatPulse`; `r1` is the completion of the pulse
command and `r2` the completion of the acknowledgement command, which is
consulted only when that second command is submitted. -/
def OpenEVSEClass.heartbeatPulse (s : OpenEVSEClass) (ack_missed : Bool) (r1 r2 : Reply) :
    Step RapiResponse :=
  if !s._sender then ⟨s, [], []⟩
  else if r1.ret = OK then
    ⟨s, [snprintf 64 "$SY".toList], [OK]⟩
  else if r1.ret = NK ∧ ack_missed = true then
    ⟨s, [snprintf 64 "$SY".toList, snprintf 64 "$SY 165".toList], [forwardCompletion r2]⟩
  else
    ⟨s, [snprintf 64 "$SY".toList], [r1.ret]⟩

/-! ## Observers and the event handler -/

def OpenEVSEClass.onBoot (s : OpenEVSEClass) (callback : Option Nat) : OpenEVSEClass :=
  { s with _boot := callback }

def OpenEVSEClass.onState (s : OpenEVSEClass) (callback : Option Nat) : OpenEVSEClass :=
  { s with _state := callback }

def OpenEVSEClass.onWiFi (s : OpenEVSEClass) (callback : Option Nat) : OpenEVSEClass :=
  { s with _wifi := callback }

def OpenEVSEClass.onButton (s : OpenEVSEClass) (callback : Option Nat) : OpenEVSEClass :=
  { s with _button := callback }

/-- An invocation of a registered observer: which handler, and its arguments. -/
inductive ObserverCall where
  | boot (handler : Nat) (post_code : Nat) (firmware : Option CString)
  | state (handler : Nat) (evse_state pilot_state current_capacity vflags : Nat)
  | wifi (handler : Nat) (event : Nat)
  | button (handler : Nat) (event : Nat)
  deriving DecidableEq, Repr

/-- Outcome of `onEvent`: either the handler ran to its end, or it handed the
`NULL` of the absent token `i` to `strcmp` or `strtol`. -/
inductive EventResult where
  | nullToken (i : Nat)
  | done (step : Step ObserverCall)
  deriving DecidableEq, Repr

/-- A token of the event line that is dereferenced by `strcmp` or `strtol`. -/
def readToken (line : List CString) (i : Nat) (k : CString → EventResult) : EventResult :=
  match line.get? i with
  | none => EventResult.nullToken i
  | some t => k t

/-- `OpenEVSEClass::onEvent` on the tokens of an incoming line. -/
def OpenEVSEClass.onEvent (s : OpenEVSEClass) (line : List CString) : EventResult :=
  if !s._sender then EventResult.done ⟨s, [], []⟩
  else
    readToken line 0 fun t0 =>
    if t0 = "$ST".toList then
      readToken line 1 fun val =>
      let state := toUInt8 (strtol val 16)
      EventResult.done ⟨s, [], (s._state.map fun h =>
        ObserverCall.state h state (toUInt8 OPENEVSE_STATE_INVALID) 0 0).toList⟩
    else if t0 = "$WF".toList then
      readToken line 1 fun val =>
      let wifiMode := toUInt8 (strtol val 10)
      EventResult.done ⟨s, [], (s._wifi.map fun h => ObserverCall.wifi h wifiMode).toList⟩
    else if t0 = "$AT".toList then
      readToken line 1 fun val1 =>
      let evse_state := toUInt8 (strtol val1 16)
      readToken line 2 fun val2 =>
      let pilot_state := toUInt8 (strtol val2 16)
      readToken line 3 fun val3 =>
      let current_capacity := toUInt32 (strtol val3 10)
      readToken line 4 fun val4 =>
      let vflags := toUInt32 (strtol val4 16)
      EventResult.done ⟨s, [], (s._state.map fun h =>
        ObserverCall.state h evse_state pilot_state current_capacity vflags).toList⟩
    else if t0 = "$AB".toList then
      readToken line 1 fun val =>
      let post_code := toUInt8 (strtol val 16)
      EventResult.done ⟨s, [], (s._boot.map fun h =>
        ObserverCall.boot h post_code (line.get? 2)).toList⟩
    else if t0 = "$AN".toList then
      readToken line 1 fun val =>
      let log_press := toUInt8 (strtol val 10)
      EventResult.done ⟨s, [], (s._button.map fun h => ObserverCall.button h log_press).toList⟩
    else
      EventResult.done ⟨s, [], []⟩

/-- The observer invocations of an event: none when the handler stopped at an
absent token. -/
def EventResult.calls : EventResult → List ObserverCall
  | EventResult.nullToken _ => []
  | EventResult.done step => step.calls

/-! ## Device states (`openevse.h`) and their names (`get_charger_state.cpp`) -/

def OPENEVSE_STATE_STARTING : Int := 0

def OPENEVSE_STATE_NOT_CONNECTED : Int := 1

def OPENEVSE_STATE_CONNECTED : Int := 2

def OPENEVSE_STATE_CHARGING : Int := 3

def OPENEVSE_STATE_VENT_REQUIRED : Int := 4

def OPENEVSE_STATE_DIODE_CHECK_FAILED : Int := 5

def OPENEVSE_STATE_GFI_FAULT : Int := 6

def OPENEVSE_STATE_NO_EARTH_GROUND : Int := 7

def OPENEVSE_STATE_STUCK_RELAY : Int := 8

def OPENEVSE_STATE_GFI_SELF_TEST_FAILED : Int := 9

def OPENEVSE_STATE_OVER_TEMPERATURE : Int := 10

def OPENEVSE_STATE_OVER_CURRENT : Int := 11

def OPENEVSE_STATE_SLEEPING : Int := 254

def OPENEVSE_STATE_DISABLED : Int := 255

/-- The codes of the defined device states, `OPENEVSE_STATE_STARTING` to
`OPENEVSE_STATE_DISABLED`. -/
def definedStates : List Int :=
  [OPENEVSE_STATE_STARTING, OPENEVSE_STATE_NOT_CONNECTED, OPENEVSE_STATE_CONNECTED,
   OPENEVSE_STATE_CHARGING, OPENEVSE_STATE_VENT_REQUIRED, OPENEVSE_STATE_DIODE_CHECK_FAILED,
   OPENEVSE_STATE_GFI_FAULT, OPENEVSE_STATE_NO_EARTH_GROUND, OPENEVSE_STATE_STUCK_RELAY,
   OPENEVSE_STATE_GFI_SELF_TEST_FAILED, OPENEVSE_STATE_OVER_TEMPERATURE,
   OPENEVSE_STATE_OVER_CURRENT, OPENEVSE_STATE_SLEEPING, OPENEVSE_STATE_DISABLED]

/-- The `switch` of `get_state_name(uint8_t state)` in the example program. -/
def get_state_name (state : Nat) : String :=
  if (state : Int) = OPENEVSE_STATE_STARTING then "Starting"
  else if (state : Int) = OPENEVSE_STATE_NOT_CONNECTED then "Not Connected"
  else if (state : Int) = OPENEVSE_STATE_CONNECTED then "EV Connected"
  else if (state : Int) = OPENEVSE_STATE_CHARGING then "Charging"
  else if (state : Int) = OPENEVSE_STATE_VENT_REQUIRED then "Vent Required"
  else if (state : Int) = OPENEVSE_STATE_DIODE_CHECK_FAILED then "Diode Check Failed"
  else if (state : Int) = OPENEVSE_STATE_GFI_FAULT then "GFCI Fault"
  else if (state : Int) = OPENEVSE_STATE_NO_EARTH_GROUND then "No Earth Ground"
  else if (state : Int) = OPENEVSE_STATE_STUCK_RELAY then "Stuck Relay"
  else if (state : Int) = OPENEVSE_STATE_GFI_SELF_TEST_FAILED then "GFCI Self Test Failed"
  else if (state : Int) = OPENEVSE_STATE_OVER_TEMPERATURE then "Over Temperature"
  else if (state : Int) = OPENEVSE_STATE_OVER_CURRENT then "Over Current"
  else if (state : Int) = OPENEVSE_STATE_SLEEPING then "Sleeping"
  else if (state : Int) = OPENEVSE_STATE_DISABLED then "Disabled"
  else "Invalid"

/-! ## The decimal rendering read back by the digit loop -/

theorem digitVal_digitChar (m : Nat) (hm : m < 10) : digitVal (Nat.digitChar m) = some m := by
  interval_cases m <;> decide

theorem scanDigits_toDigitsCore (fuel : Nat) : ∀ (n : Nat) (ds : CString) (acc : Nat) (any : Bool),
    n < fuel → ∃ k, scanDigits 10 acc any (Nat.toDigitsCore 10 fuel n ds)
      = scanDigits 10 (acc * 10 ^ k + n) true ds := by
  induction fuel with
  | zero => intro n ds acc any h; omega
  | succ fuel ih =>
    intro n ds acc any hn
    rw [Nat.toDigitsCore]
    by_cases h10 : n / 10 = 0
    · have hlt : n < 10 := by omega
      refine ⟨1, ?_⟩
      simp only [h10, if_true, scanDigits, digitVal_digitChar (n % 10) (Nat.mod_lt _ (by omega))]
      have : n % 10 = n := Nat.mod_eq_of_lt hlt
      simp [this, hlt]
    · obtain ⟨k, hk⟩ := ih (n / 10) (Nat.digitChar (n % 10) :: ds) acc any (by omega)
      refine ⟨k + 1, ?_⟩
      simp only [h10, if_false]
      rw [hk]
      simp only [scanDigits, digitVal_digitChar (n % 10) (Nat.mod_lt _ (by omega))]
      have h1 : n % 10 < 10 := Nat.mod_lt _ (by omega)
      simp only [h1, if_true]
      congr 1
      have := Nat.div_add_mod n 10
      ring_nf
      omega

theorem toDigitsCore_append (fuel : Nat) : ∀ (n : Nat) (ds rest : CString),
    Nat.toDigitsCore 10 fuel n ds ++ rest = Nat.toDigitsCore 10 fuel n (ds ++ rest) := by
  induction fuel with
  | zero => intro n ds rest; simp [Nat.toDigitsCore]
  | succ fuel ih =>
    intro n ds rest
    rw [Nat.toDigitsCore, Nat.toDigitsCore]
    by_cases h10 : n / 10 = 0
    · simp [h10]
    · simp only [h10, if_false]
      rw [ih]
      simp

theorem toDigitsCore_head (fuel : Nat) : ∀ (n : Nat) (ds : CString),
    ∃ m tl, m < 10 ∧ Nat.toDigitsCore 10 (fuel + 1) n ds = Nat.digitChar m :: tl := by
  induction fuel with
  | zero =>
    intro n ds
    refine ⟨n % 10, ds, Nat.mod_lt _ (by omega), ?_⟩
    rw [Nat.toDigitsCore]
    by_cases h10 : n / 10 = 0
    · simp [h10]
    · simp [h10, Nat.toDigitsCore]
  | succ fuel ih =>
    intro n ds
    rw [Nat.toDigitsCore]
    by_cases h10 : n / 10 = 0
    · exact ⟨n % 10, ds, Nat.mod_lt _ (by omega), by simp [h10]⟩
    · simp only [h10, if_false]
      exact ih _ _

theorem skipSpace_digitChar (m : Nat) (hm : m < 10) (tl : CString) :
    skipSpace (Nat.digitChar m :: tl) = Nat.digitChar m :: tl := by
  interval_cases m <;> rfl

theorem scanSign_digitChar (m : Nat) (hm : m < 10) (tl : CString) :
    scanSign (Nat.digitChar m :: tl) = (false, Nat.digitChar m :: tl) := by
  interval_cases m <;> rfl

/-- A `%d` conversion reads the decimal rendering of `n` back as `n` (converted
to `int`) and stops where the rendering ends. -/
theorem scanfInt_toDigits (n : Nat) (rest : CString) :
    scanfInt (Nat.toDigits 10 n ++ rest)
      = match scanDigits 10 n true rest with
        | (acc, _, r) => some (toInt32 (acc : Int), r) := by
  obtain ⟨m, tl, hm, hhead⟩ := toDigitsCore_head n n rest
  obtain ⟨k, hk⟩ := scanDigits_toDigitsCore (n + 1) n rest 0 false (by omega)
  have happ : Nat.toDigits 10 n ++ rest = Nat.toDigitsCore 10 (n + 1) n rest := by
    rw [Nat.toDigits, toDigitsCore_append]; simp
  have hsd : scanDigits 10 0 false (Nat.toDigitsCore 10 (n + 1) n rest)
      = scanDigits 10 n true rest := by
    rw [hk]; simp
  have hany : ∀ (acc : Nat) (l : CString), (scanDigits 10 acc true l).2.1 = true := by
    intro acc l
    induction l generalizing acc with
    | nil => rfl
    | cons c cs ih =>
      unfold scanDigits
      cases hd : digitVal c with
      | none => rfl
      | some d =>
        by_cases hlt : d < 10
        · simp only [hlt, if_true]; exact ih _
        · simp only [hlt, if_false]
  have h2 := hany n rest
  unfold scanfInt
  rw [happ]
  have h3 : skipSpace (Nat.toDigitsCore 10 (n + 1) n rest) = Nat.toDigitsCore 10 (n + 1) n rest := by
    rw [hhead]; exact skipSpace_digitChar m hm tl
  have h4 : scanSign (Nat.toDigitsCore 10 (n + 1) n rest)
      = (false, Nat.toDigitsCore 10 (n + 1) n rest) := by
    rw [hhead]; exact scanSign_digitChar m hm tl
  simp only [h3, h4, hsd]
  rcases hres : scanDigits 10 n true rest with ⟨acc, any, r⟩
  rw [hres] at h2
  simp only at h2
  subst h2
  simp

theorem scanDigits_dot (n : Nat) (any : Bool) (rest : CString) :
    scanDigits 10 n any ('.' :: rest) = (n, any, '.' :: rest) := by
  rfl

theorem clampLong_of_le (n : Nat) (h : n ≤ 2147483647) : clampLong (n : Int) = (n : Int) := by
  unfold clampLong LONG_MAX LONG_MIN
  have h1 : ¬ ((n : Int) > 2147483647) := by omega
  have h2 : ¬ ((n : Int) < -2147483648) := by omega
  simp [h1, h2]

/-- `sscanf` with `"%d.%d.%d"` on the rendering of a version triple assigns the
three numbers, each converted to `int`. -/
theorem sscanf_versionString (a b c : Nat) :
    sscanf_d_d_d (versionString a b c)
      = [toInt32 (a : Int), toInt32 (b : Int), toInt32 (c : Int)] := by
  have hc : scanfInt (Nat.toDigits 10 c) = some (toInt32 (c : Int), []) := by
    have := scanfInt_toDigits c []
    simpa [scanDigits] using this
  unfold sscanf_d_d_d versionString
  rw [scanfInt_toDigits a, scanDigits_dot]
  simp only
  rw [scanfInt_toDigits b, scanDigits_dot]
  simp only
  rw [hc]

theorem skipHexMarker_ten (l : CString) : skipHexMarker 10 l = l := by
  unfold skipHexMarker
  split <;> simp

/-- A `strtol` call in base 10 reads the decimal rendering of `n` back as `n`,
clamped to the range of `long`. -/
theorem strtol_toDigits (n : Nat) : strtol (Nat.toDigits 10 n) 10 = clampLong (n : Int) := by
  obtain ⟨m, tl, hm, hhead⟩ := toDigitsCore_head n n []
  obtain ⟨k, hk⟩ := scanDigits_toDigitsCore (n + 1) n [] 0 false (by omega)
  have hsd : scanDigits 10 0 false (Nat.toDigits 10 n) = (n, true, []) := by
    rw [Nat.toDigits, hk]; simp [scanDigits]
  have h3 : skipSpace (Nat.toDigits 10 n) = Nat.toDigits 10 n := by
    rw [Nat.toDigits, hhead]; exact skipSpace_digitChar m hm tl
  have h4 : scanSign (Nat.toDigits 10 n) = (false, Nat.toDigits 10 n) := by
    rw [Nat.toDigits, hhead]; exact scanSign_digitChar m hm tl
  simp [strtol, h3, h4, skipHexMarker_ten, hsd]

theorem ocpp_version_eq : OPENEVSE_OCPP_SUPPORT_PROTOCOL_VERSION = 5000 := by
  decide

theorem invalid_state_uint8 : toUInt8 OPENEVSE_STATE_INVALID = 255 := by
  decide

theorem toInt32_of_range (x : Int) (h0 : -2147483648 ≤ x) (h1 : x ≤ 2147483647) :
    toInt32 x = x := by
  unfold toInt32
  omega

theorem toUInt32_toInt32 (x : Int) (h0 : 0 ≤ x) (h1 : x < 4294967296) :
    toUInt32 (toInt32 x) = x.toNat := by
  unfold toUInt32 toInt32
  omega

/-! ## Connection negotiation -/

/-- C1. For all `a`, `b`, `c` with `a*1000+b*100+c < 2^32`, if the version
query completes with OK and a reply of at least 3 tokens whose token 2 is
the string `a.b.c`, then after `begin` the client is Connected, the stored
ProtocolVersion is `a*1000+b*100+c`, and the callback receives
`connected = true` with tokens 1 and 2 of the reply. -/
theorem begin_success (s : OpenEVSEClass) (a b c : Nat) (t0 fw : CString) (rest : List CString)
    (hlt : a * 1000 + b * 100 + c < 4294967296) :
    begin s ⟨OK, t0 :: fw :: versionString a b c :: rest⟩
      = ({ s with _sender := true, _connected := true, _protocol := a * 1000 + b * 100 + c },
         some ⟨true, some fw, some (versionString a b c)⟩) := by
  have hv : toUInt32 (OPENEVSE_ENCODE_VERSION (toInt32 (a : Int)) (toInt32 (b : Int))
      (toInt32 (c : Int))) = a * 1000 + b * 100 + c := by
    unfold toUInt32 OPENEVSE_ENCODE_VERSION toInt32
    omega
  simp [begin, getVersion, beginCompletion, Reply.getTokenCnt, Reply.getToken,
    sscanf_versionString, hv]

/-- Witness of `begin_success` at protocol version 5.1.0 on a fresh client. -/
theorem begin_success_witness :
    begin OpenEVSEClass.new ⟨OK, ["$OK".toList, "7.1.3".toList, versionString 5 1 0]⟩
      = ({ OpenEVSEClass.new with _sender := true, _connected := true, _protocol := 5100 },
         some ⟨true, some "7.1.3".toList, some (versionString 5 1 0)⟩) :=
  begin_success OpenEVSEClass.new 5 1 0 "$OK".toList "7.1.3".toList [] (by decide)

/-- C2 (as amended). The version encoding is strictly monotonic in
lexicographic order when the smaller triple has minor at most 9 and patch at
most 99 and the larger triple's `a1*1000+b1*100+c1` fits the 32 bits it is
computed and stored in: below `2^32` the values stored as ProtocolVersion
(`uint32_t`) are strictly ordered, and at most `INT_MAX` the `int` values of
the macro are. -/
theorem encode_version_strict_mono (a b c a1 b1 c1 : Nat) (hb : b ≤ 9) (hc : c ≤ 99)
    (hlex : a < a1 ∨ (a = a1 ∧ (b < b1 ∨ (b = b1 ∧ c < c1))))
    (hfit : a1 * 1000 + b1 * 100 + c1 < 4294967296) :
    toUInt32 (OPENEVSE_ENCODE_VERSION a b c) < toUInt32 (OPENEVSE_ENCODE_VERSION a1 b1 c1)
      ∧ (a1 * 1000 + b1 * 100 + c1 ≤ 2147483647 →
          OPENEVSE_ENCODE_VERSION a b c < OPENEVSE_ENCODE_VERSION a1 b1 c1) := by
  have hlt : (a : Int) * 1000 + b * 100 + c < (a1 : Int) * 1000 + b1 * 100 + c1 := by omega
  unfold OPENEVSE_ENCODE_VERSION
  constructor
  · rw [toUInt32_toInt32 _ (by omega) (by omega), toUInt32_toInt32 _ (by omega) (by omega)]
    omega
  · intro h
    rw [toInt32_of_range _ (by omega) (by omega), toInt32_of_range _ (by omega) (by omega)]
    exact hlt

/-- Witness of `encode_version_strict_mono`: 4.9.99 is encoded below 5.0.0. -/
theorem encode_version_strict_mono_witness :
    toUInt32 (OPENEVSE_ENCODE_VERSION (4 : Nat) (9 : Nat) (99 : Nat))
        < toUInt32 (OPENEVSE_ENCODE_VERSION (5 : Nat) (0 : Nat) (0 : Nat))
      ∧ ((5 : Nat) * 1000 + 0 * 100 + 0 ≤ 2147483647 →
          OPENEVSE_ENCODE_VERSION (4 : Nat) (9 : Nat) (99 : Nat)
            < OPENEVSE_ENCODE_VERSION (5 : Nat) (0 : Nat) (0 : Nat)) :=
  encode_version_strict_mono 4 9 99 5 0 0 (by decide) (by decide) (Or.inl (by decide))
    (by decide)

/-- C2 fails as stated: (0, 11, 0) is lexicographically smaller than (1, 0, 0)
but is encoded as 1100, above the 1000 of (1, 0, 0); and (1, 0, 0) is
lexicographically smaller than (4294968, 0, 0), whose encoding wraps to 704,
below the 1000 of (1, 0, 0). -/
theorem encode_version_counterexample :
    (((0 : Nat) < 1 ∨ ((0 : Nat) = 1 ∧ ((11 : Nat) < 0 ∨ ((11 : Nat) = 0 ∧ (0 : Nat) < 0))))
        ∧ OPENEVSE_ENCODE_VERSION (0 : Nat) (11 : Nat) (0 : Nat) = 1100
        ∧ OPENEVSE_ENCODE_VERSION (1 : Nat) (0 : Nat) (0 : Nat) = 1000
        ∧ ¬ (OPENEVSE_ENCODE_VERSION (0 : Nat) (11 : Nat) (0 : Nat)
              < OPENEVSE_ENCODE_VERSION (1 : Nat) (0 : Nat) (0 : Nat)))
      ∧ (((1 : Nat) < 4294968
            ∨ ((1 : Nat) = 4294968 ∧ ((0 : Nat) < 0 ∨ ((0 : Nat) = 0 ∧ (0 : Nat) < 0))))
        ∧ OPENEVSE_ENCODE_VERSION (4294968 : Nat) (0 : Nat) (0 : Nat) = 704
        ∧ ¬ (OPENEVSE_ENCODE_VERSION (1 : Nat) (0 : Nat) (0 : Nat)
              < OPENEVSE_ENCODE_VERSION (4294968 : Nat) (0 : Nat) (0 : Nat))
        ∧ (begin OpenEVSEClass.new
            ⟨OK, ["$OK".toList, "7.1.3".toList, versionString 4294968 0 0]⟩).1._protocol = 704) := by
  decide

/-- C3. For every completion of the version query whose result code is not OK,
or whose reply has fewer than 3 tokens, the client is Disconnected after
`begin` (whatever its state before), the callback receives
`connected = false`, and the stored ProtocolVersion is unchanged. -/
theorem begin_failure (s : OpenEVSEClass) (r : Reply)
    (h : r.ret ≠ OK ∨ r.tokens.length < 3) :
    begin s r = ({ s with _sender := true, _connected := false }, some ⟨false, none, none⟩)
      ∧ (begin s r).1._connected = false
      ∧ (begin s r).1._protocol = s._protocol := by
  by_cases hok : r.ret = OK
  · have hlen : ¬ (3 ≤ r.tokens.length) := by
      rcases h with h | h
      · exact absurd hok h
      · omega
    simp [begin, getVersion, beginCompletion, Reply.getTokenCnt, hok, hlen]
  · simp [begin, getVersion, beginCompletion, hok]

/-- Witness of `begin_failure`: a channel-level failure code on a client that
was Connected at version 5.0.0. -/
theorem begin_failure_witness :
    begin ⟨true, true, 5000, none, none, none, none⟩ ⟨other (-1), []⟩
        = (⟨true, false, 5000, none, none, none, none⟩, some ⟨false, none, none⟩)
      ∧ (begin ⟨true, true, 5000, none, none, none, none⟩ ⟨other (-1), []⟩).1._connected = false
      ∧ (begin ⟨true, true, 5000, none, none, none, none⟩ ⟨other (-1), []⟩).1._protocol = 5000 :=
  begin_failure ⟨true, true, 5000, none, none, none, none⟩ ⟨other (-1), []⟩ (Or.inl (by decide))

/-- C4 (as amended). For every OK version reply whose protocol token does not
start with three decimal integers separated by dots, as `sscanf` reads them
with `"%d.%d.%d"` (fewer than three conversions succeed), `begin` leaves the
client Disconnected and does not change the stored ProtocolVersion. -/
theorem begin_malformed_version (s : OpenEVSEClass) (t0 fw p : CString) (rest : List CString)
    (h : (sscanf_d_d_d p).length ≠ 3) :
    begin s ⟨OK, t0 :: fw :: p :: rest⟩
      = ({ s with _sender := true, _connected := false }, some ⟨false, some fw, some p⟩) := by
  simp only [begin, getVersion, beginCompletion, Reply.getTokenCnt, Reply.getToken]
  rcases hl : sscanf_d_d_d p with _ | ⟨x, _ | ⟨y, _ | ⟨z, _ | ⟨w, l⟩⟩⟩⟩
  · simp [hl]
  · simp [hl]
  · simp [hl]
  · rw [hl] at h; simp at h
  · simp [hl]

/-- C4 fails as stated: trailing characters, a fourth component and leading
white space are all accepted; each of these replies leaves a fresh client
Connected with ProtocolVersion 5000 instead of the initial 1000. -/
theorem begin_malformed_version_counterexample :
    ((begin OpenEVSEClass.new ⟨OK, ["$OK".toList, "7.1.3".toList, "5.0.0rc1".toList]⟩).1._connected
        = true
      ∧ (begin OpenEVSEClass.new ⟨OK, ["$OK".toList, "7.1.3".toList, "5.0.0rc1".toList]⟩).1._protocol
        = 5000)
    ∧ ((begin OpenEVSEClass.new ⟨OK, ["$OK".toList, "7.1.3".toList, "5.0.0.1".toList]⟩).1._connected
        = true
      ∧ (begin OpenEVSEClass.new ⟨OK, ["$OK".toList, "7.1.3".toList, "5.0.0.1".toList]⟩).1._protocol
        = 5000)
    ∧ ((begin OpenEVSEClass.new ⟨OK, ["$OK".toList, "7.1.3".toList, " 5.0.0".toList]⟩).1._connected
        = true
      ∧ (begin OpenEVSEClass.new ⟨OK, ["$OK".toList, "7.1.3".toList, " 5.0.0".toList]⟩).1._protocol
        = 5000)
    ∧ OpenEVSEClass.new._protocol = 1000 := by
  decide

/-- Witness of `begin_malformed_version`: the protocol token `5.0` has only two
components. -/
theorem begin_malformed_version_witness :
    begin OpenEVSEClass.new ⟨OK, ["$OK".toList, "7.1.3".toList, "5.0".toList]⟩
      = ({ OpenEVSEClass.new with _sender := true, _connected := false },
         some ⟨false, some "7.1.3".toList, some "5.0".toList⟩) :=
  begin_malformed_version OpenEVSEClass.new "$OK".toList "7.1.3".toList "5.0".toList []
    (by decide)

/-- C5 (as amended). Every `begin` step either leaves the stored
ProtocolVersion equal to its value before the step, or it succeeds (the
client is Connected) and stores the encoding of the version the reply
reports, whether that is higher or lower than the value before. -/
theorem begin_protocol_step (s : OpenEVSEClass) (r : Reply) :
    (begin s r).1._protocol = s._protocol
      ∨ ((begin s r).1._connected = true
          ∧ ∃ p major minor patch, r.getToken 2 = some p
              ∧ sscanf_d_d_d p = [major, minor, patch]
              ∧ (begin s r).1._protocol
                  = toUInt32 (OPENEVSE_ENCODE_VERSION major minor patch)) := by
  by_cases hok : r.ret = OK
  · by_cases hlen : 3 ≤ r.tokens.length
    · rcases htk : r.tokens with _ | ⟨t0, _ | ⟨t1, _ | ⟨p, rest⟩⟩⟩
      · rw [htk] at hlen; simp at hlen
      · rw [htk] at hlen; simp at hlen
      · rw [htk] at hlen; simp at hlen
      · rcases hl : sscanf_d_d_d p with _ | ⟨x, _ | ⟨y, _ | ⟨z, _ | ⟨w, l⟩⟩⟩⟩
        · left; simp [begin, getVersion, beginCompletion, Reply.getTokenCnt, Reply.getToken, hok, htk, hl]
        · left; simp [begin, getVersion, beginCompletion, Reply.getTokenCnt, Reply.getToken, hok, htk, hl]
        · left; simp [begin, getVersion, beginCompletion, Reply.getTokenCnt, Reply.getToken, hok, htk, hl]
        · right
          refine ⟨?_, p, x, y, z, ?_, hl, ?_⟩
          · simp [begin, getVersion, beginCompletion, Reply.getTokenCnt, Reply.getToken, hok, htk, hl]
          · simp [Reply.getToken, htk]
          · simp [begin, getVersion, beginCompletion, Reply.getTokenCnt, Reply.getToken, hok, htk, hl]
        · left; simp [begin, getVersion, beginCompletion, Reply.getTokenCnt, Reply.getToken, hok, htk, hl]
    · left; simp [begin, getVersion, beginCompletion, Reply.getTokenCnt, hok, hlen]
  · left; simp [begin, getVersion, beginCompletion, hok]

/-- C5 fails as stated: after a `begin` that negotiated 5.0.0, a second
`begin` whose reply reports 1.0.0 succeeds and lowers the stored
ProtocolVersion from 5000 to 1000. -/
theorem begin_protocol_counterexample :
    (begin OpenEVSEClass.new ⟨OK, ["$OK".toList, "7.1.3".toList, "5.0.0".toList]⟩).1._connected
        = true
      ∧ (begin OpenEVSEClass.new ⟨OK, ["$OK".toList, "7.1.3".toList, "5.0.0".toList]⟩).1._protocol
        = 5000
      ∧ (begin (begin OpenEVSEClass.new ⟨OK, ["$OK".toList, "7.1.3".toList, "5.0.0".toList]⟩).1
          ⟨OK, ["$OK".toList, "1.0.0".toList, "1.0.0".toList]⟩).1._protocol = 1000
      ∧ ¬ ((begin (begin OpenEVSEClass.new ⟨OK, ["$OK".toList, "7.1.3".toList, "5.0.0".toList]⟩).1
          ⟨OK, ["$OK".toList, "1.0.0".toList, "1.0.0".toList]⟩).1._protocol
          ≥ (begin OpenEVSEClass.new
              ⟨OK, ["$OK".toList, "7.1.3".toList, "5.0.0".toList]⟩).1._protocol) := by
  decide

/-! ## Query operations: decoding and result codes -/

/-- C6. For every ProtocolVersion below 5000 and every OK reply with at
least 3 tokens (whatever follows them), `getStatus` delivers OK,
`evse_state` = token 1 read by `strtol` in base 10 and reduced to 8 bits,
session time = token 2 read in base 10, `pilot_state` = the Invalid code
(255 as `uint8_t`) and `vflags` = 0. In particular, when tokens 1 and 2 are
the decimal renderings of `m` and `n` (both at most `LONG_MAX`), the state is
`m % 256` and the session time is `n`. -/
theorem getStatus_legacy (s : OpenEVSEClass) (t0 t1 t2 : CString) (rest : List CString)
    (hs : s._sender = true) (hp : s._protocol < 5000) :
    getStatus s ⟨OK, t0 :: t1 :: t2 :: rest⟩
        = some ⟨OK, toUInt8 (strtol t1 10), toUInt32 (strtol t2 10),
            toUInt8 OPENEVSE_STATE_INVALID, 0⟩
      ∧ toUInt8 OPENEVSE_STATE_INVALID = 255
      ∧ ∀ m n : Nat, m ≤ 2147483647 → n ≤ 2147483647 →
          getStatus s ⟨OK, t0 :: Nat.toDigits 10 m :: Nat.toDigits 10 n :: rest⟩
            = some ⟨OK, m % 256, n, 255, 0⟩ := by
  have hp1 : (s._protocol : Int) < 5000 := by omega
  have hp2 : ¬ ((5000 : Int) ≤ (s._protocol : Int)) := by omega
  have hgen : ∀ u1 u2 : CString, getStatus s ⟨OK, t0 :: u1 :: u2 :: rest⟩
      = some ⟨OK, toUInt8 (strtol u1 10), toUInt32 (strtol u2 10),
          toUInt8 OPENEVSE_STATE_INVALID, 0⟩ := by
    intro u1 u2
    simp [getStatus, hs, ocpp_version_eq, hp1, hp2, Reply.getTokenCnt, tokenLong, Reply.getToken]
  refine ⟨hgen t1 t2, invalid_state_uint8, ?_⟩
  intro m n hm hn
  rw [hgen, strtol_toDigits, strtol_toDigits, clampLong_of_le m hm, clampLong_of_le n hn,
    invalid_state_uint8]
  have h1 : toUInt8 (m : Int) = m % 256 := by unfold toUInt8; omega
  have h2 : toUInt32 (n : Int) = n := by unfold toUInt32; omega
  rw [h1, h2]

/-- Witness of `getStatus_legacy`: version 4.0.1, state 3, 1234 seconds, with
extra tokens. -/
theorem getStatus_legacy_witness :
    getStatus ⟨true, true, 4001, none, none, none, none⟩
        ⟨OK, ["$OK".toList, "3".toList, "1234".toList, "01".toList, "0040".toList]⟩
      = some ⟨OK, 3, 1234, 255, 0⟩ := by
  have h := (getStatus_legacy ⟨true, true, 4001, none, none, none, none⟩ "$OK".toList
    "3".toList "1234".toList ["01".toList, "0040".toList] rfl (by decide)).1
  rw [h]
  decide

/-- C7 (as amended). For every ProtocolVersion at or above 5000 and every OK
reply with at least 5 tokens, `evse_state`, `pilot_state` and `vflags` are
the base-16 values of tokens 1, 3 and 4 (the states reduced to 8 bits), and
the elapsed seconds are the base-10 value of token 2. -/
theorem getStatus_current (s : OpenEVSEClass) (t0 t1 t2 t3 t4 : CString) (rest : List CString)
    (hs : s._sender = true) (hp : 5000 ≤ s._protocol) :
    getStatus s ⟨OK, t0 :: t1 :: t2 :: t3 :: t4 :: rest⟩
      = some ⟨OK, toUInt8 (strtol t1 16), toUInt32 (strtol t2 10),
          toUInt8 (strtol t3 16), toUInt32 (strtol t4 16)⟩ := by
  have hp1 : ¬ ((s._protocol : Int) < 5000) := by omega
  have hp2 : (5000 : Int) ≤ (s._protocol : Int) := by omega
  simp [getStatus, hs, ocpp_version_eq, hp1, hp2, Reply.getTokenCnt, tokenLong, Reply.getToken]

/-- Witness of `getStatus_current`: version 5.0.0, state `fe` (Sleeping, 254),
`1234` seconds, pilot `0a`, flags `0140`. -/
theorem getStatus_current_witness :
    getStatus ⟨true, true, 5000, none, none, none, none⟩
        ⟨OK, ["$OK".toList, "fe".toList, "1234".toList, "0a".toList, "0140".toList]⟩
      = some ⟨OK, 254, 1234, 10, 320⟩ := by
  have h := getStatus_current ⟨true, true, 5000, none, none, none, none⟩ "$OK".toList
    "fe".toList "1234".toList "0a".toList "0140".toList [] rfl (by decide)
  rw [h]
  decide

/-- C7 fails as stated: at version 5.0.0, with token 2 equal to `10`, the
elapsed seconds delivered are 10 (base 10), not the base-16 value 16. -/
theorem getStatus_current_counterexample :
    (getStatus ⟨true, true, 5000, none, none, none, none⟩
        ⟨OK, ["$OK".toList, "03".toList, "10".toList, "03".toList, "0040".toList]⟩)
      = some ⟨OK, 3, 10, 3, 64⟩
      ∧ toUInt32 (strtol "10".toList 16) = 16
      ∧ (getStatus ⟨true, true, 5000, none, none, none, none⟩
          ⟨OK, ["$OK".toList, "03".toList, "10".toList, "03".toList, "0040".toList]⟩).map
            (fun x => x.session_time) ≠ some (toUInt32 (strtol "10".toList 16)) := by
  decide

/-- C8 (as amended). For every query operation and every OK reply with one
fewer token than the operation requires (for `getStatus`: 3 below version
5000, 5 at or above), the callback receives INVALID_RESPONSE with every
numeric output zero, every validity flag false and every string output
null, except that `getStatus` delivers the Invalid code (255) as
`evse_state` and `pilot_state`. -/
theorem query_malformed_reply (mktime : Tm → Int) (s : OpenEVSEClass)
    (t0 t1 t2 t3 t4 t5 : CString) (hs : s._sender = true) :
    getVersion s ⟨OK, [t0, t1]⟩ = some ⟨INVALID_RESPONSE, none, none⟩
      ∧ getStatus s ⟨OK, if s._protocol < 5000 then [t0, t1] else [t0, t1, t2, t3]⟩
          = some ⟨INVALID_RESPONSE, 255, 0, 255, 0⟩
      ∧ getTime mktime s ⟨OK, [t0, t1, t2, t3, t4, t5]⟩ = some ⟨INVALID_RESPONSE, 0⟩
      ∧ getChargeCurrentAndVoltage s ⟨OK, [t0, t1]⟩ = some ⟨INVALID_RESPONSE, 0, 0⟩
      ∧ getTemperature s ⟨OK, [t0, t1, t2]⟩
          = some ⟨INVALID_RESPONSE, 0, false, 0, false, 0, false⟩
      ∧ getEnergy s ⟨OK, [t0, t1]⟩ = some ⟨INVALID_RESPONSE, 0, 0⟩
      ∧ getFaultCounters s ⟨OK, [t0, t1, t2]⟩ = some ⟨INVALID_RESPONSE, 0, 0, 0⟩
      ∧ getSettings s ⟨OK, [t0, t1]⟩ = some ⟨INVALID_RESPONSE, 0, 0⟩
      ∧ getSerial s ⟨OK, [t0]⟩ = some ⟨INVALID_RESPONSE, none⟩
      ∧ getCurrentCapacity s ⟨OK, [t0, t1, t2, t3]⟩ = some ⟨INVALID_RESPONSE, 0, 0, 0, 0⟩
      ∧ getAmmeterSettings s ⟨OK, [t0, t1]⟩ = some ⟨INVALID_RESPONSE, 0, 0⟩
      ∧ getTimer s ⟨OK, [t0, t1, t2, t3]⟩ = some ⟨INVALID_RESPONSE, 0, 0, 0, 0⟩ := by
  refine ⟨?_, ?_, ?_, ?_, ?_, ?_, ?_, ?_, ?_, ?_, ?_, ?_⟩
  · simp [getVersion, hs, Reply.getTokenCnt]
  · by_cases hp : s._protocol < 5000
    · have hp1 : (s._protocol : Int) < 5000 := by omega
      simp [getStatus, hs, ocpp_version_eq, hp, hp1, Reply.getTokenCnt, invalid_state_uint8]
    · have hp1 : ¬ ((s._protocol : Int) < 5000) := by omega
      simp [getStatus, hs, ocpp_version_eq, hp, hp1, Reply.getTokenCnt, invalid_state_uint8]
  · simp [getTime, hs, Reply.getTokenCnt]
  · simp [getChargeCurrentAndVoltage, hs, Reply.getTokenCnt]
  · simp [getTemperature, hs, Reply.getTokenCnt]
  · simp [getEnergy, hs, Reply.getTokenCnt]
  · simp [getFaultCounters, hs, Reply.getTokenCnt]
  · simp [getSettings, hs, Reply.getTokenCnt]
  · simp [getSerial, hs, Reply.getTokenCnt]
  · simp [getCurrentCapacity, hs, Reply.getTokenCnt]
  · simp [getAmmeterSettings, hs, Reply.getTokenCnt]
  · simp [getTimer, hs, Reply.getTokenCnt]

/-- Witness of `query_malformed_reply` on a client Connected at version 5.0.0. -/
theorem query_malformed_reply_witness :
    getVersion ⟨true, true, 5000, none, none, none, none⟩ ⟨OK, ["$OK".toList, "7.1.3".toList]⟩
        = some ⟨INVALID_RESPONSE, none, none⟩
      ∧ getStatus ⟨true, true, 5000, none, none, none, none⟩
          ⟨OK, ["$OK".toList, "7.1.3".toList, "1".toList, "2".toList]⟩
          = some ⟨INVALID_RESPONSE, 255, 0, 255, 0⟩ :=
  have h := query_malformed_reply (fun _ => 0) ⟨true, true, 5000, none, none, none, none⟩
    "$OK".toList "7.1.3".toList "1".toList "2".toList "3".toList "4".toList rfl
  ⟨h.1, h.2.1⟩

/-- C8 fails as stated: `getStatus` on a client at version 1.0.0 with a 2-token
OK reply delivers INVALID_RESPONSE with `evse_state` and `pilot_state` equal
to 255 (the Invalid code), not zero. -/
theorem query_malformed_reply_counterexample :
    getStatus ⟨true, true, 1000, none, none, none, none⟩ ⟨OK, ["$OK".toList, "1".toList]⟩
        = some ⟨INVALID_RESPONSE, 255, 0, 255, 0⟩
      ∧ (getStatus ⟨true, true, 1000, none, none, none, none⟩
          ⟨OK, ["$OK".toList, "1".toList]⟩).map (fun x => x.evse_state) ≠ some 0 := by
  decide

/-- C9. For every query operation with a bound channel and every completion
code other than OK, the callback receives exactly that code, whatever
tokens the reply holds, and no field of the reply is decoded: numeric
outputs are zero, validity flags false, strings null, and the two states of
`getStatus` are the Invalid code. -/
theorem query_failure_passthrough (mktime : Tm → Int) (s : OpenEVSEClass) (ret : RapiResponse)
    (toks : List CString) (hs : s._sender = true) (hret : ret ≠ OK) :
    getVersion s ⟨ret, toks⟩ = some ⟨ret, none, none⟩
      ∧ getStatus s ⟨ret, toks⟩ = some ⟨ret, 255, 0, 255, 0⟩
      ∧ getTime mktime s ⟨ret, toks⟩ = some ⟨ret, 0⟩
      ∧ getChargeCurrentAndVoltage s ⟨ret, toks⟩ = some ⟨ret, 0, 0⟩
      ∧ getTemperature s ⟨ret, toks⟩ = some ⟨ret, 0, false, 0, false, 0, false⟩
      ∧ getEnergy s ⟨ret, toks⟩ = some ⟨ret, 0, 0⟩
      ∧ getFaultCounters s ⟨ret, toks⟩ = some ⟨ret, 0, 0, 0⟩
      ∧ getSettings s ⟨ret, toks⟩ = some ⟨ret, 0, 0⟩
      ∧ getSerial s ⟨ret, toks⟩ = some ⟨ret, none⟩
      ∧ getCurrentCapacity s ⟨ret, toks⟩ = some ⟨ret, 0, 0, 0, 0⟩
      ∧ getAmmeterSettings s ⟨ret, toks⟩ = some ⟨ret, 0, 0⟩
      ∧ getTimer s ⟨ret, toks⟩ = some ⟨ret, 0, 0, 0, 0⟩ := by
  refine ⟨?_, ?_, ?_, ?_, ?_, ?_, ?_, ?_, ?_, ?_, ?_, ?_⟩
  · simp [getVersion, hs, hret]
  · simp [getStatus, hs, hret, invalid_state_uint8]
  · simp [getTime, hs, hret]
  · simp [getChargeCurrentAndVoltage, hs, hret]
  · simp [getTemperature, hs, hret]
  · simp [getEnergy, hs, hret]
  · simp [getFaultCounters, hs, hret]
  · simp [getSettings, hs, hret]
  · simp [getSerial, hs, hret]
  · simp [getCurrentCapacity, hs, hret]
  · simp [getAmmeterSettings, hs, hret]
  · simp [getTimer, hs, hret]

/-- Witness of `query_failure_passthrough`: an NK completion that carries a full
set of well-formed tokens. -/
theorem query_failure_passthrough_witness :
    getTimer ⟨true, true, 5000, none, none, none, none⟩
        ⟨NK, ["$NK".toList, "22".toList, "30".toList, "6".toList, "15".toList]⟩
        = some ⟨NK, 0, 0, 0, 0⟩
      ∧ getFaultCounters ⟨true, true, 5000, none, none, none, none⟩
          ⟨NK, ["$NK".toList, "22".toList, "30".toList, "6".toList, "15".toList]⟩
          = some ⟨NK, 0, 0, 0⟩ :=
  have h := query_failure_passthrough (fun _ => 0) ⟨true, true, 5000, none, none, none, none⟩ NK
    ["$NK".toList, "22".toList, "30".toList, "6".toList, "15".toList] rfl (by decide)
  ⟨h.2.2.2.2.2.2.2.2.2.2.2, h.2.2.2.2.2.2.1⟩

/-- C10. With a bound channel, `getTime` on an OK reply whose six payload
tokens are 65, 65, 65, 65, 65, 85 delivers FEATURE_NOT_SUPPORTED with time
0, for every ProtocolVersion and connection state (every client `s`), every
`mktime`, and whatever tokens follow. -/
theorem getTime_sentinel_tokens (mktime : Tm → Int) (s : OpenEVSEClass) (t0 : CString)
    (rest : List CString) (hs : s._sender = true) :
    getTime mktime s ⟨OK, t0 :: "65".toList :: "65".toList :: "65".toList :: "65".toList
        :: "65".toList :: "85".toList :: rest⟩
      = some ⟨FEATURE_NOT_SUPPORTED, 0⟩ := by
  have h65 : strtol ['6', '5'] 10 = 65 := by decide
  have h85 : strtol ['8', '5'] 10 = 85 := by decide
  simp [getTime, hs, Reply.getTokenCnt, tokenLong, Reply.getToken, h65, h85]

/-- Witness of `getTime_sentinel_tokens` on a Disconnected client at the initial
version with a bound channel. -/
theorem getTime_sentinel_tokens_witness :
    getTime (fun _ => 0) ⟨true, false, 1000, none, none, none, none⟩
        ⟨OK, "$OK".toList :: "65".toList :: "65".toList :: "65".toList :: "65".toList
          :: "65".toList :: "85".toList :: []⟩
      = some ⟨FEATURE_NOT_SUPPORTED, 0⟩ :=
  getTime_sentinel_tokens (fun _ => 0) ⟨true, false, 1000, none, none, none, none⟩
    "$OK".toList [] rfl

/-- C11 (as amended). For every OK reply with at least 7 tokens, `getTime`
reports FEATURE_NOT_SUPPORTED with time 0 as soon as one of the first five
decimal fields is 165 or the seconds field is 85 (so in particular on the
sentinel tuple), and for every other tuple it reports OK with the time
`mktime` computes from `tm_year = 100 + year` and the five other fields. -/
theorem getTime_sentinel (mktime : Tm → Int) (s : OpenEVSEClass)
    (t0 t1 t2 t3 t4 t5 t6 : CString) (rest : List CString) (hs : s._sender = true) :
    getTime mktime s ⟨OK, t0 :: t1 :: t2 :: t3 :: t4 :: t5 :: t6 :: rest⟩
      = if strtol t1 10 = 165 ∨ strtol t2 10 = 165 ∨ strtol t3 10 = 165 ∨ strtol t4 10 = 165
            ∨ strtol t5 10 = 165 ∨ strtol t6 10 = 85 then
          some ⟨FEATURE_NOT_SUPPORTED, 0⟩
        else
          some ⟨OK, mktime ⟨100 + strtol t1 10, strtol t2 10, strtol t3 10, strtol t4 10,
            strtol t5 10, strtol t6 10⟩⟩ := by
  simp only [getTime, hs, Reply.getTokenCnt, tokenLong, Reply.getToken]
  by_cases h1 : strtol t1 10 = 165
  · simp [h1]
  by_cases h2 : strtol t2 10 = 165
  · simp [h2]
  by_cases h3 : strtol t3 10 = 165
  · simp [h3]
  by_cases h4 : strtol t4 10 = 165
  · simp [h4]
  by_cases h5 : strtol t5 10 = 165
  · simp [h5]
  by_cases h6 : strtol t6 10 = 85
  · simp [h6]
  have e1 : (165 : Int) ≠ strtol t1 10 := fun h => h1 h.symm
  have e2 : (165 : Int) ≠ strtol t2 10 := fun h => h2 h.symm
  have e3 : (165 : Int) ≠ strtol t3 10 := fun h => h3 h.symm
  have e4 : (165 : Int) ≠ strtol t4 10 := fun h => h4 h.symm
  have e5 : (165 : Int) ≠ strtol t5 10 := fun h => h5 h.symm
  have e6 : (85 : Int) ≠ strtol t6 10 := fun h => h6 h.symm
  simp [h1, h2, h3, h4, h5, h6, e1, e2, e3, e4, e5, e6]

/-- Witness of `getTime_sentinel` on the sentinel tuple itself. -/
theorem getTime_sentinel_witness :
    getTime (fun tm => tm.tm_sec) ⟨true, true, 5000, none, none, none, none⟩
        ⟨OK, ["$OK".toList, "165".toList, "165".toList, "165".toList, "165".toList,
          "165".toList, "85".toList]⟩
      = some ⟨FEATURE_NOT_SUPPORTED, 0⟩ := by
  have h := getTime_sentinel (fun tm => tm.tm_sec) ⟨true, true, 5000, none, none, none, none⟩
    "$OK".toList "165".toList "165".toList "165".toList "165".toList "165".toList "85".toList
    [] rfl
  rw [h]
  decide

/-- C11 fails as stated: the tuple (21, 6, 15, 12, 165, 10) is not the sentinel
tuple, yet `getTime` reports FEATURE_NOT_SUPPORTED for it, not OK. -/
theorem getTime_sentinel_counterexample :
    ((21, 6, 15, 12, 165, 10) : Int × Int × Int × Int × Int × Int)
        ≠ (165, 165, 165, 165, 165, 85)
      ∧ getTime (fun tm => tm.tm_sec) ⟨true, true, 5000, none, none, none, none⟩
          ⟨OK, ["$OK".toList, "21".toList, "6".toList, "15".toList, "12".toList,
            "165".toList, "10".toList]⟩
        = some ⟨FEATURE_NOT_SUPPORTED, 0⟩ := by
  decide

/-- What `getTemperature` delivers on an OK reply with at least 4 tokens. -/
theorem getTemperature_ok (s : OpenEVSEClass) (t0 t1 t2 t3 : CString) (rest : List CString)
    (hs : s._sender = true) :
    getTemperature s ⟨OK, t0 :: t1 :: t2 :: t3 :: rest⟩
      = some ⟨OK, (strtol t1 10 : ℚ) / 10, decide (-2560 ≠ strtol t1 10),
          (strtol t2 10 : ℚ) / 10, decide (-2560 ≠ strtol t2 10),
          (strtol t3 10 : ℚ) / 10, decide (-2560 ≠ strtol t3 10)⟩ := by
  simp [getTemperature, hs, Reply.getTokenCnt, tokenLong, Reply.getToken]

/-- C12 (as amended). For every OK reply with at least 4 tokens and each
sensor i in 1, 2, 3: if token i reads as -2560 then that sensor's validity
flag is false and its reported value is -256 (the raw reading divided by 10,
not 0), whatever the other two tokens are. -/
theorem getTemperature_absent_sensor (s : OpenEVSEClass) (t0 t1 t2 t3 : CString)
    (rest : List CString) (hs : s._sender = true) :
    ∃ res, getTemperature s ⟨OK, t0 :: t1 :: t2 :: t3 :: rest⟩ = some res
      ∧ res.ret = OK
      ∧ (strtol t1 10 = -2560 → res.temp1_valid = false ∧ res.temp1 = -256)
      ∧ (strtol t2 10 = -2560 → res.temp2_valid = false ∧ res.temp2 = -256)
      ∧ (strtol t3 10 = -2560 → res.temp3_valid = false ∧ res.temp3 = -256) := by
  refine ⟨_, getTemperature_ok s t0 t1 t2 t3 rest hs, rfl, ?_, ?_, ?_⟩
  · intro h
    simp only [h]
    constructor
    · decide
    · norm_num
  · intro h
    simp only [h]
    constructor
    · decide
    · norm_num
  · intro h
    simp only [h]
    constructor
    · decide
    · norm_num

theorem strtol_absent_reading : strtol "-2560".toList 10 = -2560 := by
  decide

/-- Witness of `getTemperature_absent_sensor`: sensors 1 and 3 absent, sensor 2
at 23.0 degrees. -/
theorem getTemperature_absent_sensor_witness :
    ∃ res, getTemperature ⟨true, true, 5000, none, none, none, none⟩
        ⟨OK, ["$OK".toList, "-2560".toList, "230".toList, "-2560".toList]⟩ = some res
      ∧ res.temp1_valid = false ∧ res.temp1 = -256
      ∧ res.temp3_valid = false ∧ res.temp3 = -256 := by
  obtain ⟨res, h, _, h1, _, h3⟩ := getTemperature_absent_sensor
    ⟨true, true, 5000, none, none, none, none⟩ "$OK".toList "-2560".toList "230".toList
    "-2560".toList [] rfl
  exact ⟨res, h, (h1 strtol_absent_reading).1, (h1 strtol_absent_reading).2,
    (h3 strtol_absent_reading).1, (h3 strtol_absent_reading).2⟩

/-- C12 fails as stated: with token 1 equal to `-2560` the validity flag of
sensor 1 is false but its reported value is -256, not 0. -/
theorem getTemperature_absent_sensor_counterexample :
    (getTemperature ⟨true, true, 5000, none, none, none, none⟩
        ⟨OK, ["$OK".toList, "-2560".toList, "230".toList, "-2560".toList]⟩).map
          (fun res => (res.temp1_valid, res.temp1)) = some (false, -256)
      ∧ (getTemperature ⟨true, true, 5000, none, none, none, none⟩
        ⟨OK, ["$OK".toList, "-2560".toList, "230".toList, "-2560".toList]⟩).map
          (fun res => res.temp1) ≠ some 0 := by
  have h := getTemperature_ok ⟨true, true, 5000, none, none, none, none⟩ "$OK".toList
    "-2560".toList "230".toList "-2560".toList [] rfl
  rw [h, strtol_absent_reading]
  constructor
  · simp only [Option.map_some', Option.some.injEq, Prod.mk.injEq]
    constructor
    · decide
    · norm_num
  · simp only [Option.map_some', ne_eq, Option.some.injEq]
    norm_num

/-- C13 (the code at the failing input). On the OK reply `$OK 6 80 32 40`
(min 6, hw-max 80, pilot 32, configured-max 40) the callback of
`getCurrentCapacity`, declared with the parameters `(ret, min_current, pilot,
max_configured_current, max_hardware_current)`, receives `pilot = 80`,
`max_configured_current = 32` and `max_hardware_current = 40`. -/
theorem getCurrentCapacity_argument_order :
    getCurrentCapacity ⟨true, true, 5000, none, none, none, none⟩
        ⟨OK, ["$OK".toList, "6".toList, "80".toList, "32".toList, "40".toList]⟩
      = some { ret := OK, min_current := 6, pilot := 80, max_configured_current := 32,
               max_hardware_current := 40 } := by
  decide

/-! ## Mutating operations: confirmation values and result codes -/

/-- C14. With a bound channel, for every completion code in OK, NK and every
reply with at least 2 tokens, the callback of `setCurrentCapacity` receives
that same code and the pilot amps read from token 1 in base 10 (so `n` when
token 1 is the decimal rendering of `n`); with fewer than 2 tokens it
receives INVALID_RESPONSE and pilot 0. The callback is invoked once. -/
theorem setCurrentCapacity_confirmation (s : OpenEVSEClass) (amps : Int) (save : Bool)
    (ret : RapiResponse) (t0 t1 : CString) (rest : List CString)
    (hs : s._sender = true) (hret : ret = OK ∨ ret = NK) :
    (s.setCurrentCapacity amps save ⟨ret, t0 :: t1 :: rest⟩).calls = [⟨ret, strtol t1 10⟩]
      ∧ (∀ n : Nat, n ≤ 2147483647 →
          (s.setCurrentCapacity amps save ⟨ret, t0 :: Nat.toDigits 10 n :: rest⟩).calls
            = [⟨ret, (n : Int)⟩])
      ∧ (∀ toks : List CString, toks.length < 2 →
          (s.setCurrentCapacity amps save ⟨ret, toks⟩).calls = [⟨INVALID_RESPONSE, 0⟩]) := by
  have hgen : ∀ u1 : CString,
      (s.setCurrentCapacity amps save ⟨ret, t0 :: u1 :: rest⟩).calls = [⟨ret, strtol u1 10⟩] := by
    intro u1
    simp [OpenEVSEClass.setCurrentCapacity, sendCmd, setCurrentCapacityCompletion, hs, hret,
      Reply.getTokenCnt, tokenLong, Reply.getToken]
  refine ⟨hgen t1, ?_, ?_⟩
  · intro n hn
    rw [hgen, strtol_toDigits, clampLong_of_le n hn]
  · intro toks hlen
    have hl : ¬ (2 ≤ toks.length) := by omega
    simp [OpenEVSEClass.setCurrentCapacity, sendCmd, setCurrentCapacityCompletion, hs, hret,
      Reply.getTokenCnt, hl]

/-- Witness of `setCurrentCapacity_confirmation`: a request for 100 A that the
controller clamps to 48 A and answers with NK. -/
theorem setCurrentCapacity_confirmation_witness :
    (OpenEVSEClass.setCurrentCapacity ⟨true, true, 5000, none, none, none, none⟩ 100 true
        ⟨NK, ["$NK".toList, "48".toList]⟩).calls = [⟨NK, 48⟩] := by
  have h := (setCurrentCapacity_confirmation ⟨true, true, 5000, none, none, none, none⟩ 100 true
    NK "$NK".toList "48".toList [] rfl (Or.inr rfl)).1
  rw [h]
  decide

/-- C15 (as amended). With a bound channel, for every completion code that is
neither OK nor NK, the callback of `setCurrentCapacity` receives that code
unchanged, with pilot 0, whatever tokens the reply holds. -/
theorem setCurrentCapacity_other_codes (s : OpenEVSEClass) (amps : Int) (save : Bool)
    (ret : RapiResponse) (toks : List CString)
    (hs : s._sender = true) (hok : ret ≠ OK) (hnk : ret ≠ NK) :
    (s.setCurrentCapacity amps save ⟨ret, toks⟩).calls = [⟨ret, 0⟩] := by
  simp [OpenEVSEClass.setCurrentCapacity, sendCmd, setCurrentCapacityCompletion, hs, hok, hnk]

/-- Witness of `setCurrentCapacity_other_codes` at a channel-level failure code. -/
theorem setCurrentCapacity_other_codes_witness :
    (OpenEVSEClass.setCurrentCapacity ⟨true, true, 5000, none, none, none, none⟩ 40 true
        ⟨other (-1), []⟩).calls = [⟨other (-1), 0⟩] :=
  setCurrentCapacity_other_codes ⟨true, true, 5000, none, none, none, none⟩ 40 true
    (other (-1)) [] rfl (by decide) (by decide)

/-- C15 fails as stated: on the completion code FEATURE_NOT_SUPPORTED, which is
neither OK nor NK, the callback receives FEATURE_NOT_SUPPORTED, not
INVALID_RESPONSE. -/
theorem setCurrentCapacity_other_codes_counterexample :
    (OpenEVSEClass.setCurrentCapacity ⟨true, true, 5000, none, none, none, none⟩ 40 true
        ⟨FEATURE_NOT_SUPPORTED, ["$NK".toList]⟩).calls = [⟨FEATURE_NOT_SUPPORTED, 0⟩]
      ∧ (OpenEVSEClass.setCurrentCapacity ⟨true, true, 5000, none, none, none, none⟩ 40 true
        ⟨FEATURE_NOT_SUPPORTED, ["$NK".toList]⟩).calls ≠ [⟨INVALID_RESPONSE, 0⟩] := by
  decide

/-- C16 (the code at the failing input). `setCurrentCapacity(40, true)` submits
`$SC 40` and, completed with `$OK 40`, delivers pilot 40; the following
`getCurrentCapacity`, completed with `$OK 6 80 32 40` (configured-max 40),
delivers 32 as `max_configured_current`; the 40 arrives as the argument
declared `max_hardware_current`. -/
theorem currentCapacity_round_trip_failing_input :
    (OpenEVSEClass.setCurrentCapacity ⟨true, true, 5000, none, none, none, none⟩ 40 true
        ⟨OK, ["$OK".toList, "40".toList]⟩).sent = ["$SC 40".toList]
      ∧ (OpenEVSEClass.setCurrentCapacity ⟨true, true, 5000, none, none, none, none⟩ 40 true
        ⟨OK, ["$OK".toList, "40".toList]⟩).calls.map (fun res => res.pilot) = [40]
      ∧ (OpenEVSEClass.getCurrentCapacity ⟨true, true, 5000, none, none, none, none⟩
        ⟨OK, ["$OK".toList, "6".toList, "80".toList, "32".toList, "40".toList]⟩).calls.map
          (fun res => res.max_configured_current) = [32]
      ∧ (OpenEVSEClass.getCurrentCapacity ⟨true, true, 5000, none, none, none, none⟩
        ⟨OK, ["$OK".toList, "6".toList, "80".toList, "32".toList, "40".toList]⟩).calls.map
          (fun res => res.max_hardware_current) = [40] := by
  decide

/-- C17. With a bound channel, when the pulse command `$SY` completes with NK:
with `ack_missed = true` exactly one further command, `$SY 165`, is
submitted and the callback receives, once, the result code of that second
command; with `ack_missed = false` the callback receives NK and only `$SY`
was submitted. When the pulse completes with OK, OK is reported and only
`$SY` was submitted. -/
theorem heartbeatPulse_missed (s : OpenEVSEClass) (r1 r2 : Reply) (hs : s._sender = true) :
    (r1.ret = NK →
        (s.heartbeatPulse true r1 r2).sent = ["$SY".toList, "$SY 165".toList]
          ∧ (s.heartbeatPulse true r1 r2).calls = [r2.ret])
      ∧ (r1.ret = NK →
        (s.heartbeatPulse false r1 r2).sent = ["$SY".toList]
          ∧ (s.heartbeatPulse false r1 r2).calls = [NK])
      ∧ (r1.ret = OK → ∀ ack_missed : Bool,
        (s.heartbeatPulse ack_missed r1 r2).sent = ["$SY".toList]
          ∧ (s.heartbeatPulse ack_missed r1 r2).calls = [OK]) := by
  have h3 : snprintf 64 ['$', 'S', 'Y'] = ['$', 'S', 'Y'] := by decide
  have h7 : snprintf 64 ['$', 'S', 'Y', ' ', '1', '6', '5']
      = ['$', 'S', 'Y', ' ', '1', '6', '5'] := by decide
  refine ⟨?_, ?_, ?_⟩
  · intro h
    simp [OpenEVSEClass.heartbeatPulse, hs, h, h3, h7, forwardCompletion]
  · intro h
    simp [OpenEVSEClass.heartbeatPulse, hs, h, h3]
  · intro h ack_missed
    simp [OpenEVSEClass.heartbeatPulse, hs, h, h3]

/-- Witness of `heartbeatPulse_missed`: NK for the pulse, then OK for the
acknowledgement, reports OK. -/
theorem heartbeatPulse_missed_witness :
    (OpenEVSEClass.heartbeatPulse ⟨true, true, 5000, none, none, none, none⟩ true
        ⟨NK, ["$NK".toList]⟩ ⟨OK, ["$OK".toList]⟩).sent = ["$SY".toList, "$SY 165".toList]
      ∧ (OpenEVSEClass.heartbeatPulse ⟨true, true, 5000, none, none, none, none⟩ true
        ⟨NK, ["$NK".toList]⟩ ⟨OK, ["$OK".toList]⟩).calls = [OK] :=
  (heartbeatPulse_missed ⟨true, true, 5000, none, none, none, none⟩ ⟨NK, ["$NK".toList]⟩
    ⟨OK, ["$OK".toList]⟩ rfl).1 rfl

/-! ## The channel guard and the single callback -/

/-- C18. On a client with no Command Channel bound, every query, every
mutating operation and the event handler submit no command, invoke no
callback and leave every data member (ConnectionState, ProtocolVersion, the
observer slots) as it was. -/
theorem unbound_channel (mktime : Tm → Int) (gmtime_r : Int → Tm) (s : OpenEVSEClass)
    (hs : s._sender = false) :
    (∀ (r : Reply), OpenEVSEClass.getVersion s r = ⟨s, [], []⟩)
      ∧ (∀ (r : Reply), OpenEVSEClass.getStatus s r = ⟨s, [], []⟩)
      ∧ (∀ (r : Reply), OpenEVSEClass.getTime mktime s r = ⟨s, [], []⟩)
      ∧ (∀ (r : Reply), OpenEVSEClass.getChargeCurrentAndVoltage s r = ⟨s, [], []⟩)
      ∧ (∀ (r : Reply), OpenEVSEClass.getTemperature s r = ⟨s, [], []⟩)
      ∧ (∀ (r : Reply), OpenEVSEClass.getEnergy s r = ⟨s, [], []⟩)
      ∧ (∀ (r : Reply), OpenEVSEClass.getFaultCounters s r = ⟨s, [], []⟩)
      ∧ (∀ (r : Reply), OpenEVSEClass.getSettings s r = ⟨s, [], []⟩)
      ∧ (∀ (r : Reply), OpenEVSEClass.getSerial s r = ⟨s, [], []⟩)
      ∧ (∀ (r : Reply), OpenEVSEClass.getCurrentCapacity s r = ⟨s, [], []⟩)
      ∧ (∀ (r : Reply), OpenEVSEClass.getAmmeterSettings s r = ⟨s, [], []⟩)
      ∧ (∀ (r : Reply), OpenEVSEClass.getTimer s r = ⟨s, [], []⟩)
      ∧ (∀ (time : Int) (r : Reply), OpenEVSEClass.setTime gmtime_r s time r = ⟨s, [], []⟩)
      ∧ (∀ (time : Tm) (r : Reply), OpenEVSEClass.setTime_tm s time r = ⟨s, [], []⟩)
      ∧ (∀ (level : Nat) (r : Reply), OpenEVSEClass.setServiceLevel s level r = ⟨s, [], []⟩)
      ∧ (∀ (amps : Int) (save : Bool) (r : Reply), OpenEVSEClass.setCurrentCapacity s amps save r = ⟨s, [], []⟩)
      ∧ (∀ (scale offset : Int) (r : Reply), OpenEVSEClass.setAmmeterSettings s scale offset r = ⟨s, [], []⟩)
      ∧ (∀ (milliVolts : Nat) (r : Reply), OpenEVSEClass.setVoltage s milliVolts r = ⟨s, [], []⟩)
      ∧ (∀ (volts : ℚ) (r : Reply), OpenEVSEClass.setVoltage_volts s volts r = ⟨s, [], []⟩)
      ∧ (∀ (start_hour start_minute end_hour end_minute : Int) (r : Reply), OpenEVSEClass.setTimer s start_hour start_minute end_hour end_minute r = ⟨s, [], []⟩)
      ∧ (∀ (r : Reply), OpenEVSEClass.clearTimer s r = ⟨s, [], []⟩)
      ∧ (∀ (r : Reply), OpenEVSEClass.enable s r = ⟨s, [], []⟩)
      ∧ (∀ (r : Reply), OpenEVSEClass.sleep s r = ⟨s, [], []⟩)
      ∧ (∀ (r : Reply), OpenEVSEClass.disable s r = ⟨s, [], []⟩)
      ∧ (∀ (r : Reply), OpenEVSEClass.restart s r = ⟨s, [], []⟩)
      ∧ (∀ (r : Reply), OpenEVSEClass.clearBootLock s r = ⟨s, [], []⟩)
      ∧ (∀ (feature : Nat) (enable : Bool) (r : Reply), OpenEVSEClass.feature s feature enable r = ⟨s, [], []⟩)
      ∧ (∀ (enable : Bool) (r : Reply), OpenEVSEClass.lcdEnable s enable r = ⟨s, [], []⟩)
      ∧ (∀ (colour : Int) (r : Reply), OpenEVSEClass.lcdSetColour s colour r = ⟨s, [], []⟩)
      ∧ (∀ (x y : Int) (text : CString) (r : Reply), OpenEVSEClass.lcdDisplayText s x y text r = ⟨s, [], []⟩)
      ∧ (∀ (interval current : Int) (r : Reply), OpenEVSEClass.heartbeatEnable s interval current r = ⟨s, [], []⟩)
      ∧ (∀ (ack_missed : Bool) (r : Reply) (r2 : Reply), OpenEVSEClass.heartbeatPulse s ack_missed r r2 = ⟨s, [], []⟩)
      ∧ (∀ line : List CString, s.onEvent line = EventResult.done ⟨s, [], []⟩) := by
  refine ⟨?_, ?_, ?_, ?_, ?_, ?_, ?_, ?_, ?_, ?_, ?_, ?_, ?_, ?_, ?_, ?_, ?_, ?_, ?_, ?_, ?_, ?_, ?_, ?_, ?_, ?_, ?_, ?_, ?_, ?_, ?_, ?_, ?_⟩
  all_goals intros
  all_goals
    simp [OpenEVSEClass.getVersion, OpenEVSEClass.getStatus, OpenEVSEClass.getTime,
      OpenEVSEClass.getChargeCurrentAndVoltage, OpenEVSEClass.getTemperature,
      OpenEVSEClass.getEnergy, OpenEVSEClass.getFaultCounters, OpenEVSEClass.getSettings,
      OpenEVSEClass.getSerial, OpenEVSEClass.getCurrentCapacity,
      OpenEVSEClass.getAmmeterSettings, OpenEVSEClass.getTimer, OpenEVSEClass.setTime,
      OpenEVSEClass.setTime_tm, OpenEVSEClass.setServiceLevel, OpenEVSEClass.setCurrentCapacity,
      OpenEVSEClass.setAmmeterSettings, OpenEVSEClass.setVoltage,
      OpenEVSEClass.setVoltage_volts, OpenEVSEClass.setTimer, OpenEVSEClass.clearTimer,
      OpenEVSEClass.enable, OpenEVSEClass.sleep, OpenEVSEClass.disable, OpenEVSEClass.restart,
      OpenEVSEClass.clearBootLock, OpenEVSEClass.feature, OpenEVSEClass.lcdEnable,
      OpenEVSEClass.lcdSetColour, OpenEVSEClass.lcdDisplayText, OpenEVSEClass.heartbeatEnable,
      OpenEVSEClass.heartbeatPulse, OpenEVSEClass.onEvent, sendCmd, hs]

/-- Witness of `unbound_channel` on a freshly constructed client: a status
query and an incoming state-change line do nothing. -/
theorem unbound_channel_witness :
    OpenEVSEClass.getStatus OpenEVSEClass.new
        ⟨OK, ["$OK".toList, "3".toList, "1234".toList]⟩ = ⟨OpenEVSEClass.new, [], []⟩
      ∧ OpenEVSEClass.onEvent OpenEVSEClass.new ["$ST".toList, "03".toList]
          = EventResult.done ⟨OpenEVSEClass.new, [], []⟩ :=
  have h := unbound_channel (fun _ => 0) (fun _ => ⟨0, 0, 0, 0, 0, 0⟩) OpenEVSEClass.new rfl
  ⟨h.2.1 _, h.2.2.2.2.2.2.2.2.2.2.2.2.2.2.2.2.2.2.2.2.2.2.2.2.2.2.2.2.2.2.2.2 _⟩

/-- C19. For every operation with a bound channel and every completion (any
result code, any token list), the caller's callback is invoked exactly once
per call, each submitted command being completed once; for `heartbeatPulse`
this holds across its optional second command, and `begin`, which binds the
channel itself, invokes its callback once on every client. -/
theorem callback_exactly_once (mktime : Tm → Int) (gmtime_r : Int → Tm) (s : OpenEVSEClass)
    (hs : s._sender = true) :
    (∀ (r : Reply), (OpenEVSEClass.getVersion s r).calls.length = 1)
      ∧ (∀ (r : Reply), (OpenEVSEClass.getStatus s r).calls.length = 1)
      ∧ (∀ (r : Reply), (OpenEVSEClass.getTime mktime s r).calls.length = 1)
      ∧ (∀ (r : Reply), (OpenEVSEClass.getChargeCurrentAndVoltage s r).calls.length = 1)
      ∧ (∀ (r : Reply), (OpenEVSEClass.getTemperature s r).calls.length = 1)
      ∧ (∀ (r : Reply), (OpenEVSEClass.getEnergy s r).calls.length = 1)
      ∧ (∀ (r : Reply), (OpenEVSEClass.getFaultCounters s r).calls.length = 1)
      ∧ (∀ (r : Reply), (OpenEVSEClass.getSettings s r).calls.length = 1)
      ∧ (∀ (r : Reply), (OpenEVSEClass.getSerial s r).calls.length = 1)
      ∧ (∀ (r : Reply), (OpenEVSEClass.getCurrentCapacity s r).calls.length = 1)
      ∧ (∀ (r : Reply), (OpenEVSEClass.getAmmeterSettings s r).calls.length = 1)
      ∧ (∀ (r : Reply), (OpenEVSEClass.getTimer s r).calls.length = 1)
      ∧ (∀ (time : Int) (r : Reply), (OpenEVSEClass.setTime gmtime_r s time r).calls.length = 1)
      ∧ (∀ (time : Tm) (r : Reply), (OpenEVSEClass.setTime_tm s time r).calls.length = 1)
      ∧ (∀ (level : Nat) (r : Reply), (OpenEVSEClass.setServiceLevel s level r).calls.length = 1)
      ∧ (∀ (amps : Int) (save : Bool) (r : Reply), (OpenEVSEClass.setCurrentCapacity s amps save r).calls.length = 1)
      ∧ (∀ (scale offset : Int) (r : Reply), (OpenEVSEClass.setAmmeterSettings s scale offset r).calls.length = 1)
      ∧ (∀ (milliVolts : Nat) (r : Reply), (OpenEVSEClass.setVoltage s milliVolts r).calls.length = 1)
      ∧ (∀ (volts : ℚ) (r : Reply), (OpenEVSEClass.setVoltage_volts s volts r).calls.length = 1)
      ∧ (∀ (start_hour start_minute end_hour end_minute : Int) (r : Reply), (OpenEVSEClass.setTimer s start_hour start_minute end_hour end_minute r).calls.length = 1)
      ∧ (∀ (r : Reply), (OpenEVSEClass.clearTimer s r).calls.length = 1)
      ∧ (∀ (r : Reply), (OpenEVSEClass.enable s r).calls.length = 1)
      ∧ (∀ (r : Reply), (OpenEVSEClass.sleep s r).calls.length = 1)
      ∧ (∀ (r : Reply), (OpenEVSEClass.disable s r).calls.length = 1)
      ∧ (∀ (r : Reply), (OpenEVSEClass.restart s r).calls.length = 1)
      ∧ (∀ (r : Reply), (OpenEVSEClass.clearBootLock s r).calls.length = 1)
      ∧ (∀ (feature : Nat) (enable : Bool) (r : Reply), (OpenEVSEClass.feature s feature enable r).calls.length = 1)
      ∧ (∀ (enable : Bool) (r : Reply), (OpenEVSEClass.lcdEnable s enable r).calls.length = 1)
      ∧ (∀ (colour : Int) (r : Reply), (OpenEVSEClass.lcdSetColour s colour r).calls.length = 1)
      ∧ (∀ (x y : Int) (text : CString) (r : Reply), (OpenEVSEClass.lcdDisplayText s x y text r).calls.length = 1)
      ∧ (∀ (interval current : Int) (r : Reply), (OpenEVSEClass.heartbeatEnable s interval current r).calls.length = 1)
      ∧ (∀ (ack_missed : Bool) (r : Reply) (r2 : Reply), (OpenEVSEClass.heartbeatPulse s ack_missed r r2).calls.length = 1)
      ∧ (∀ (s0 : OpenEVSEClass) (r : Reply), ((begin s0 r).2.toList).length = 1) := by
  refine ⟨?_, ?_, ?_, ?_, ?_, ?_, ?_, ?_, ?_, ?_, ?_, ?_, ?_, ?_, ?_, ?_, ?_, ?_, ?_, ?_, ?_, ?_, ?_, ?_, ?_, ?_, ?_, ?_, ?_, ?_, ?_, ?_, ?_⟩
  · intro r
    simp only [OpenEVSEClass.getVersion, sendCmd, hs, OpenEVSE.getVersion]
    split_ifs <;> simp_all
  · intro r
    simp only [OpenEVSEClass.getStatus, sendCmd, hs, OpenEVSE.getStatus]
    split_ifs <;> simp_all
  · intro r
    simp only [OpenEVSEClass.getTime, sendCmd, hs, OpenEVSE.getTime]
    split_ifs <;> simp_all
  · intro r
    simp only [OpenEVSEClass.getChargeCurrentAndVoltage, sendCmd, hs,
      OpenEVSE.getChargeCurrentAndVoltage]
    split_ifs <;> simp_all
  · intro r
    simp only [OpenEVSEClass.getTemperature, sendCmd, hs, OpenEVSE.getTemperature]
    split_ifs <;> simp_all
  · intro r
    simp only [OpenEVSEClass.getEnergy, sendCmd, hs, OpenEVSE.getEnergy]
    split_ifs <;> simp_all
  · intro r
    simp only [OpenEVSEClass.getFaultCounters, sendCmd, hs, OpenEVSE.getFaultCounters]
    split_ifs <;> simp_all
  · intro r
    simp only [OpenEVSEClass.getSettings, sendCmd, hs, OpenEVSE.getSettings]
    split_ifs <;> simp_all
  · intro r
    simp only [OpenEVSEClass.getSerial, sendCmd, hs, OpenEVSE.getSerial]
    split_ifs <;> simp_all
  · intro r
    simp only [OpenEVSEClass.getCurrentCapacity, sendCmd, hs, OpenEVSE.getCurrentCapacity]
    split_ifs <;> simp_all
  · intro r
    simp only [OpenEVSEClass.getAmmeterSettings, sendCmd, hs, OpenEVSE.getAmmeterSettings]
    split_ifs <;> simp_all
  · intro r
    simp only [OpenEVSEClass.getTimer, sendCmd, hs, OpenEVSE.getTimer]
    split_ifs <;> simp_all
  · intros; simp [OpenEVSEClass.setTime, OpenEVSEClass.setTime_tm, sendCmd, hs]
  · intros; simp [OpenEVSEClass.setTime_tm, sendCmd, hs]
  · intros; simp [OpenEVSEClass.setServiceLevel, sendCmd, hs]
  · intros; simp [OpenEVSEClass.setCurrentCapacity, sendCmd, hs]
  · intros; simp [OpenEVSEClass.setAmmeterSettings, sendCmd, hs]
  · intros; simp [OpenEVSEClass.setVoltage, sendCmd, hs]
  · intros; simp [OpenEVSEClass.setVoltage_volts, OpenEVSEClass.setVoltage, sendCmd, hs]
  · intros; simp [OpenEVSEClass.setTimer, sendCmd, hs]
  · intros; simp [OpenEVSEClass.clearTimer, OpenEVSEClass.setTimer, sendCmd, hs]
  · intros; simp [OpenEVSEClass.enable, sendCmd, hs]
  · intros; simp [OpenEVSEClass.sleep, sendCmd, hs]
  · intros; simp [OpenEVSEClass.disable, sendCmd, hs]
  · intros; simp [OpenEVSEClass.restart, sendCmd, hs]
  · intros; simp [OpenEVSEClass.clearBootLock, sendCmd, hs]
  · intros; simp [OpenEVSEClass.feature, sendCmd, hs]
  · intros; simp [OpenEVSEClass.lcdEnable, sendCmd, hs]
  · intros; simp [OpenEVSEClass.lcdSetColour, sendCmd, hs]
  · intros; simp [OpenEVSEClass.lcdDisplayText, sendCmd, hs]
  · intros; simp [OpenEVSEClass.heartbeatEnable, sendCmd, hs]
  · intro ack_missed r r2
    simp only [OpenEVSEClass.heartbeatPulse, hs]
    split_ifs <;> simp_all
  · intro s0 r
    simp only [begin, OpenEVSE.getVersion]
    split_ifs <;> simp_all

/-- Witness of `callback_exactly_once`: a query completed with too few tokens
and a heartbeat pulse that needs the acknowledgement each call back once. -/
theorem callback_exactly_once_witness :
    (OpenEVSEClass.getTime (fun _ => 0) ⟨true, true, 5000, none, none, none, none⟩
        ⟨OK, ["$OK".toList]⟩).calls.length = 1
      ∧ (OpenEVSEClass.heartbeatPulse ⟨true, true, 5000, none, none, none, none⟩ true
          ⟨NK, ["$NK".toList]⟩ ⟨other (-1), []⟩).calls.length = 1 :=
  have h := callback_exactly_once (fun _ => 0) (fun _ => ⟨0, 0, 0, 0, 0, 0⟩)
    ⟨true, true, 5000, none, none, none, none⟩ rfl
  ⟨h.2.2.1 _, h.2.2.2.2.2.2.2.2.2.2.2.2.2.2.2.2.2.2.2.2.2.2.2.2.2.2.2.2.2.2.2.1 _ _ _⟩

/-! ## `lcdDisplayText` -/

theorem digitChar_ne_space (m : Nat) (hm : m < 10) : Nat.digitChar m ≠ ' ' := by
  interval_cases m <;> decide

theorem toDigitsCore_no_space (fuel : Nat) : ∀ (n : Nat) (ds : CString),
    ' ' ∉ ds → ' ' ∉ Nat.toDigitsCore 10 fuel n ds := by
  induction fuel with
  | zero => intro n ds h; simpa [Nat.toDigitsCore] using h
  | succ fuel ih =>
    intro n ds h
    have hd : ' ' ∉ Nat.digitChar (n % 10) :: ds := by
      intro hmem
      rcases List.mem_cons.1 hmem with h1 | h1
      · exact digitChar_ne_space (n % 10) (Nat.mod_lt _ (by omega)) h1.symm
      · exact h h1
    rw [Nat.toDigitsCore]
    by_cases h10 : n / 10 = 0
    · simpa [h10] using hd
    · simp only [h10, if_false]
      exact ih _ _ hd

theorem fmtInt_no_space (n : Int) : ' ' ∉ fmtInt n := by
  unfold fmtInt
  split_ifs
  · intro hmem
    rcases List.mem_cons.1 hmem with h1 | h1
    · exact absurd h1 (by decide)
    · exact toDigitsCore_no_space _ _ [] (by simp) h1
  · exact toDigitsCore_no_space _ _ [] (by simp)

/-- The loop copies a run without spaces and keeps its counter. -/
theorem replaceSpaces_append (k : Int) (a b : CString) (ha : ' ' ∉ a) :
    replaceSpaces k (a ++ b) = a ++ replaceSpaces k b := by
  induction a with
  | nil => rfl
  | cons c cs ih =>
    have hc : c ≠ ' ' := fun h => ha (by simp [h])
    have hcs : ' ' ∉ cs := fun h => ha (List.mem_cons_of_mem _ h)
    simp [replaceSpaces, hc, ih hcs]

/-- The loop keeps a space while the counter is positive. -/
theorem replaceSpaces_space (k : Int) (b : CString) (hk : 1 ≤ k) :
    replaceSpaces k (' ' :: b) = ' ' :: replaceSpaces (k - 1) b := by
  have h : ¬ (k - 1 < 0) := by omega
  simp [replaceSpaces, h]

/-- Once the counter is used up, the loop overwrites every space. -/
theorem replaceSpaces_exhausted (k : Int) (b : CString) (hk : k ≤ 0) :
    replaceSpaces k b
      = b.map (fun c => if c = ' ' then OPENEVSE_LCD_SPACE_MAGIC_CHAR else c) := by
  induction b generalizing k with
  | nil => rfl
  | cons c cs ih =>
    by_cases hc : c = ' '
    · have h : k - 1 < 0 := by omega
      simp [replaceSpaces, hc, h, ih (k - 1) (by omega)]
    · simp [replaceSpaces, hc, ih k hk]

/-- C20 (as amended). With a bound channel, for every x, y and every text
that does not contain the marker byte 0xFE and is short enough for the
whole command to fit the 63 characters of the buffer, the submitted command
is `$FP <x> <y> ` followed by the text with each space replaced by 0xFE: the
head holds exactly three spaces and ends the last of them, the rest holds
none, and mapping 0xFE back to space in the rest gives the text. -/
theorem lcdDisplayText_preserves_text (s : OpenEVSEClass) (x y : Int) (text : CString)
    (r : Reply) (hs : s._sender = true) (hmagic : OPENEVSE_LCD_SPACE_MAGIC_CHAR ∉ text)
    (hfit : (fmtInt x).length + (fmtInt y).length + text.length ≤ 57) :
    ∃ head body : CString,
      (s.lcdDisplayText x y text r).sent = [head ++ body]
        ∧ head = "$FP ".toList ++ fmtInt x ++ [' '] ++ fmtInt y ++ [' ']
        ∧ body = text.map (fun c => if c = ' ' then OPENEVSE_LCD_SPACE_MAGIC_CHAR else c)
        ∧ head.count ' ' = 3
        ∧ ' ' ∉ body
        ∧ body.map (fun c => if c = OPENEVSE_LCD_SPACE_MAGIC_CHAR then ' ' else c) = text := by
  have hx := fmtInt_no_space x
  have hy := fmtInt_no_space y
  refine ⟨_, _, ?_, rfl, rfl, ?_, ?_, ?_⟩
  · have hlen : ("$FP ".toList ++ fmtInt x ++ ' ' :: fmtInt y ++ ' ' :: text).length ≤ 63 := by
      simp only [List.length_append, List.length_cons, String.toList]
      simp
      omega
    have htake : snprintf 64 ("$FP ".toList ++ fmtInt x ++ ' ' :: fmtInt y ++ ' ' :: text)
        = "$FP ".toList ++ fmtInt x ++ ' ' :: fmtInt y ++ ' ' :: text := by
      unfold snprintf
      exact List.take_of_length_le hlen
    have hrs : replaceSpaces 3 ("$FP ".toList ++ fmtInt x ++ ' ' :: fmtInt y ++ ' ' :: text)
        = "$FP ".toList ++ fmtInt x ++ [' '] ++ fmtInt y ++ [' ']
          ++ text.map (fun c => if c = ' ' then OPENEVSE_LCD_SPACE_MAGIC_CHAR else c) := by
      have e0 : "$FP ".toList ++ fmtInt x ++ ' ' :: fmtInt y ++ ' ' :: text
          = ['$', 'F', 'P'] ++ ' ' :: (fmtInt x ++ ' ' :: (fmtInt y ++ ' ' :: text)) := by
        simp [String.toList]
      rw [e0, replaceSpaces_append 3 _ _ (by decide), replaceSpaces_space 3 _ (by omega),
        replaceSpaces_append _ _ _ hx, replaceSpaces_space _ _ (by omega),
        replaceSpaces_append _ _ _ hy, replaceSpaces_space _ _ (by omega),
        replaceSpaces_exhausted _ _ (by omega)]
      simp [String.toList]
    simp only [OpenEVSEClass.lcdDisplayText, sendCmd, hs, htake, hrs]
    simp
  · have cx : List.count ' ' (fmtInt x) = 0 := List.count_eq_zero.2 hx
    have cy : List.count ' ' (fmtInt y) = 0 := List.count_eq_zero.2 hy
    simp [List.count_append, cx, cy, String.toList, List.count_cons]
  · intro hmem
    rcases List.mem_map.1 hmem with ⟨c, _, hc⟩
    by_cases h : c = ' '
    · simp only [h, if_true] at hc
      exact absurd hc (by decide)
    · simp only [h, if_false] at hc
  · rw [List.map_map]
    have hid : ∀ c ∈ text,
        ((fun c => if c = OPENEVSE_LCD_SPACE_MAGIC_CHAR then ' ' else c)
          ∘ (fun c => if c = ' ' then OPENEVSE_LCD_SPACE_MAGIC_CHAR else c)) c = c := by
      intro c hc
      by_cases h : c = ' '
      · simp [h]
      · have h2 : c ≠ OPENEVSE_LCD_SPACE_MAGIC_CHAR := fun e => hmagic (e ▸ hc)
        simp [h, h2]
    calc List.map _ text = List.map id text := List.map_congr_left hid
      _ = text := List.map_id text

/-- Witness of `lcdDisplayText_preserves_text`: the text `Hello big world` at
column 0 of row 1. -/
theorem lcdDisplayText_preserves_text_witness :
    ∃ head body : CString,
      (OpenEVSEClass.lcdDisplayText ⟨true, true, 5000, none, none, none, none⟩ 0 1
          "Hello big world".toList ⟨OK, ["$OK".toList]⟩).sent = [head ++ body]
        ∧ head = "$FP ".toList ++ fmtInt 0 ++ [' '] ++ fmtInt 1 ++ [' ']
        ∧ body = "Hello big world".toList.map
            (fun c => if c = ' ' then OPENEVSE_LCD_SPACE_MAGIC_CHAR else c)
        ∧ head.count ' ' = 3
        ∧ ' ' ∉ body
        ∧ body.map (fun c => if c = OPENEVSE_LCD_SPACE_MAGIC_CHAR then ' ' else c)
            = "Hello big world".toList :=
  lcdDisplayText_preserves_text ⟨true, true, 5000, none, none, none, none⟩ 0 1
    "Hello big world".toList ⟨OK, ["$OK".toList]⟩ rfl (by decide) (by decide)

/-- C20 fails as stated: a text of 60 letters `a` (no marker byte, no space)
at x = 0, y = 0 makes a command of 68 characters, of which only the first
63 are submitted, so the part after the third space is 55 letters long and
the text is not preserved. -/
theorem lcdDisplayText_counterexample :
    OPENEVSE_LCD_SPACE_MAGIC_CHAR ∉ List.replicate 60 'a'
      ∧ (OpenEVSEClass.lcdDisplayText ⟨true, true, 5000, none, none, none, none⟩ 0 0
          (List.replicate 60 'a') ⟨OK, ["$OK".toList]⟩).sent
          = ["$FP 0 0 ".toList ++ List.replicate 55 'a']
      ∧ (OpenEVSEClass.lcdDisplayText ⟨true, true, 5000, none, none, none, none⟩ 0 0
          (List.replicate 60 'a') ⟨OK, ["$OK".toList]⟩).sent
          ≠ ["$FP 0 0 ".toList ++ (List.replicate 60 'a').map
              (fun c => if c = ' ' then OPENEVSE_LCD_SPACE_MAGIC_CHAR else c)] := by
  decide

/-! ## Asynchronous events -/

/-- C21. With a bound channel and a state observer `h` registered, a line
with leading token `$AT` and at least 5 tokens invokes `h` once with
`evse_state` = token 1 in base 16, `pilot_state` = token 2 in base 16 (both
as `uint8_t`), `current_capacity` = token 3 in base 10 and `vflags` = token 4
in base 16 (both as `uint32_t`); a line with leading token `$ST` and at
least 2 tokens invokes `h` once with `evse_state` = token 1 in base 16,
`pilot_state` = the Invalid code, capacity 0 and flags 0. -/
theorem onEvent_state_change (s : OpenEVSEClass) (h : Nat) (t1 t2 t3 t4 : CString)
    (rest : List CString) (hs : s._sender = true) (hst : s._state = some h) :
    s.onEvent ("$AT".toList :: t1 :: t2 :: t3 :: t4 :: rest)
        = EventResult.done ⟨s, [], [ObserverCall.state h (toUInt8 (strtol t1 16))
            (toUInt8 (strtol t2 16)) (toUInt32 (strtol t3 10)) (toUInt32 (strtol t4 16))]⟩
      ∧ s.onEvent ("$ST".toList :: t1 :: rest)
        = EventResult.done ⟨s, [], [ObserverCall.state h (toUInt8 (strtol t1 16))
            (toUInt8 OPENEVSE_STATE_INVALID) 0 0]⟩ := by
  constructor
  · simp [OpenEVSEClass.onEvent, readToken, hs, hst]
  · simp [OpenEVSEClass.onEvent, readToken, hs, hst]

/-- Witness of `onEvent_state_change`: `$AT 03 03 32 0040` and `$ST fe` with
observer 7 registered. -/
theorem onEvent_state_change_witness :
    OpenEVSEClass.onEvent ⟨true, true, 5000, none, some 7, none, none⟩
        ["$AT".toList, "03".toList, "03".toList, "32".toList, "0040".toList]
        = EventResult.done ⟨⟨true, true, 5000, none, some 7, none, none⟩, [],
            [ObserverCall.state 7 3 3 32 64]⟩
      ∧ OpenEVSEClass.onEvent ⟨true, true, 5000, none, some 7, none, none⟩
          ["$ST".toList, "fe".toList]
        = EventResult.done ⟨⟨true, true, 5000, none, some 7, none, none⟩, [],
            [ObserverCall.state 7 254 255 0 0]⟩ := by
  have h1 := (onEvent_state_change ⟨true, true, 5000, none, some 7, none, none⟩ 7 "03".toList
    "03".toList "32".toList "0040".toList [] rfl rfl).1
  have h2 := (onEvent_state_change ⟨true, true, 5000, none, some 7, none, none⟩ 7 "fe".toList
    "03".toList "32".toList "0040".toList [] rfl rfl).2
  rw [h1, h2]
  decide

/-- C22. For every client and every incoming line, at most one observer
invocation takes place; an invocation goes to the handler registered in
the slot of the category the leading token names (`$AB` boot, `$ST` and
`$AT` state, `$WF` Wi-Fi, `$AN` button); a line whose leading token is none
of these invokes no observer; and a line whose category has no registered
observer invokes nothing. With a bound channel, a line that carries the
tokens its branch reads does invoke the handler registered for its
category, exactly once, with the fields decoded from the line. -/
theorem onEvent_demultiplex (s : OpenEVSEClass) (line : List CString) :
    (s.onEvent line).calls.length ≤ 1
      ∧ (∀ c ∈ (s.onEvent line).calls,
          (∃ h p f, c = ObserverCall.boot h p f ∧ s._boot = some h
              ∧ line.head? = some "$AB".toList)
            ∨ (∃ h e p cc v, c = ObserverCall.state h e p cc v ∧ s._state = some h
              ∧ (line.head? = some "$ST".toList ∨ line.head? = some "$AT".toList))
            ∨ (∃ h e, c = ObserverCall.wifi h e ∧ s._wifi = some h
              ∧ line.head? = some "$WF".toList)
            ∨ (∃ h e, c = ObserverCall.button h e ∧ s._button = some h
              ∧ line.head? = some "$AN".toList))
      ∧ (line.head? ≠ some "$AB".toList → line.head? ≠ some "$ST".toList
          → line.head? ≠ some "$AT".toList → line.head? ≠ some "$WF".toList
          → line.head? ≠ some "$AN".toList → (s.onEvent line).calls = [])
      ∧ (line.head? = some "$AB".toList → s._boot = none → (s.onEvent line).calls = [])
      ∧ (line.head? = some "$ST".toList ∨ line.head? = some "$AT".toList → s._state = none
          → (s.onEvent line).calls = [])
      ∧ (line.head? = some "$WF".toList → s._wifi = none → (s.onEvent line).calls = [])
      ∧ (line.head? = some "$AN".toList → s._button = none → (s.onEvent line).calls = [])
      ∧ (s._sender = true → ∀ (h : Nat) (t1 : CString) (rest : List CString),
          s._boot = some h →
          (s.onEvent ("$AB".toList :: t1 :: rest)).calls
            = [ObserverCall.boot h (toUInt8 (strtol t1 16)) rest.head?])
      ∧ (s._sender = true → ∀ (h : Nat) (t1 : CString) (rest : List CString),
          s._state = some h →
          (s.onEvent ("$ST".toList :: t1 :: rest)).calls
            = [ObserverCall.state h (toUInt8 (strtol t1 16))
                (toUInt8 OPENEVSE_STATE_INVALID) 0 0])
      ∧ (s._sender = true → ∀ (h : Nat) (t1 t2 t3 t4 : CString) (rest : List CString),
          s._state = some h →
          (s.onEvent ("$AT".toList :: t1 :: t2 :: t3 :: t4 :: rest)).calls
            = [ObserverCall.state h (toUInt8 (strtol t1 16)) (toUInt8 (strtol t2 16))
                (toUInt32 (strtol t3 10)) (toUInt32 (strtol t4 16))])
      ∧ (s._sender = true → ∀ (h : Nat) (t1 : CString) (rest : List CString),
          s._wifi = some h →
          (s.onEvent ("$WF".toList :: t1 :: rest)).calls
            = [ObserverCall.wifi h (toUInt8 (strtol t1 10))])
      ∧ (s._sender = true → ∀ (h : Nat) (t1 : CString) (rest : List CString),
          s._button = some h →
          (s.onEvent ("$AN".toList :: t1 :: rest)).calls
            = [ObserverCall.button h (toUInt8 (strtol t1 10))]) := by
  have hbound : (s.onEvent line).calls.length ≤ 1
      ∧ (∀ c ∈ (s.onEvent line).calls,
          (∃ h p f, c = ObserverCall.boot h p f ∧ s._boot = some h
              ∧ line.head? = some "$AB".toList)
            ∨ (∃ h e p cc v, c = ObserverCall.state h e p cc v ∧ s._state = some h
              ∧ (line.head? = some "$ST".toList ∨ line.head? = some "$AT".toList))
            ∨ (∃ h e, c = ObserverCall.wifi h e ∧ s._wifi = some h
              ∧ line.head? = some "$WF".toList)
            ∨ (∃ h e, c = ObserverCall.button h e ∧ s._button = some h
              ∧ line.head? = some "$AN".toList))
      ∧ (line.head? ≠ some "$AB".toList → line.head? ≠ some "$ST".toList
          → line.head? ≠ some "$AT".toList → line.head? ≠ some "$WF".toList
          → line.head? ≠ some "$AN".toList → (s.onEvent line).calls = [])
      ∧ (line.head? = some "$AB".toList → s._boot = none → (s.onEvent line).calls = [])
      ∧ (line.head? = some "$ST".toList ∨ line.head? = some "$AT".toList → s._state = none
          → (s.onEvent line).calls = [])
      ∧ (line.head? = some "$WF".toList → s._wifi = none → (s.onEvent line).calls = [])
      ∧ (line.head? = some "$AN".toList → s._button = none
          → (s.onEvent line).calls = []) := by
    by_cases hs : s._sender = true
    swap
    · have hs0 : s._sender = false := by simpa using hs
      simp [OpenEVSEClass.onEvent, EventResult.calls, hs0]
    rcases line with _ | ⟨t0, tl⟩
    · simp [OpenEVSEClass.onEvent, readToken, EventResult.calls, hs]
    by_cases h1 : t0 = "$ST".toList
    · subst h1
      rcases tl with _ | ⟨t1, tl⟩ <;> rcases hst : s._state with _ | h <;>
        simp [OpenEVSEClass.onEvent, readToken, EventResult.calls, hs, hst]
    by_cases h2 : t0 = "$WF".toList
    · subst h2
      rcases tl with _ | ⟨t1, tl⟩ <;> rcases hst : s._wifi with _ | h <;>
        simp [OpenEVSEClass.onEvent, readToken, EventResult.calls, hs, hst]
    by_cases h3 : t0 = "$AT".toList
    · subst h3
      rcases tl with _ | ⟨t1, _ | ⟨t2, _ | ⟨t3, _ | ⟨t4, tl⟩⟩⟩⟩ <;>
        rcases hst : s._state with _ | h <;>
        simp [OpenEVSEClass.onEvent, readToken, EventResult.calls, hs, hst]
    by_cases h4 : t0 = "$AB".toList
    · subst h4
      rcases tl with _ | ⟨t1, tl⟩ <;> rcases hst : s._boot with _ | h <;>
        simp [OpenEVSEClass.onEvent, readToken, EventResult.calls, hs, hst]
    by_cases h5 : t0 = "$AN".toList
    · subst h5
      rcases tl with _ | ⟨t1, tl⟩ <;> rcases hst : s._button with _ | h <;>
        simp [OpenEVSEClass.onEvent, readToken, EventResult.calls, hs, hst]
    have e1 : ¬ t0 = ['$', 'S', 'T'] := h1
    have e2 : ¬ t0 = ['$', 'W', 'F'] := h2
    have e3 : ¬ t0 = ['$', 'A', 'T'] := h3
    have e4 : ¬ t0 = ['$', 'A', 'B'] := h4
    have e5 : ¬ t0 = ['$', 'A', 'N'] := h5
    simp [OpenEVSEClass.onEvent, readToken, EventResult.calls, hs, e1, e2, e3, e4, e5]
  obtain ⟨b1, b2, b3, b4, b5, b6, b7⟩ := hbound
  refine ⟨b1, b2, b3, b4, b5, b6, b7, ?_, ?_, ?_, ?_, ?_⟩
  · intro hs h t1 rest hb
    rcases rest with _ | ⟨t2, rest⟩ <;>
      simp [OpenEVSEClass.onEvent, readToken, EventResult.calls, hs, hb]
  · intro hs h t1 rest hb
    simp [OpenEVSEClass.onEvent, readToken, EventResult.calls, hs, hb]
  · intro hs h t1 t2 t3 t4 rest hb
    simp [OpenEVSEClass.onEvent, readToken, EventResult.calls, hs, hb]
  · intro hs h t1 rest hb
    simp [OpenEVSEClass.onEvent, readToken, EventResult.calls, hs, hb]
  · intro hs h t1 rest hb
    simp [OpenEVSEClass.onEvent, readToken, EventResult.calls, hs, hb]

/-- Witness of `onEvent_demultiplex`: with the handlers 1 (boot), 2 (state),
3 (Wi-Fi) and 4 (button) registered, a boot line, a Wi-Fi line and a button
line each invoke the handler of their own category. -/
theorem onEvent_demultiplex_witness :
    (OpenEVSEClass.onEvent ⟨true, true, 5000, some 1, some 2, some 3, some 4⟩
        ["$AB".toList, "07".toList, "7.1.3".toList]).calls
        = [ObserverCall.boot 1 7 (some "7.1.3".toList)]
      ∧ (OpenEVSEClass.onEvent ⟨true, true, 5000, some 1, some 2, some 3, some 4⟩
        ["$WF".toList, "1".toList]).calls = [ObserverCall.wifi 3 1]
      ∧ (OpenEVSEClass.onEvent ⟨true, true, 5000, some 1, some 2, some 3, some 4⟩
        ["$AN".toList, "1".toList]).calls = [ObserverCall.button 4 1] := by
  have h := onEvent_demultiplex ⟨true, true, 5000, some 1, some 2, some 3, some 4⟩ []
  have hboot := h.2.2.2.2.2.2.2.1 rfl 1 "07".toList ["7.1.3".toList] rfl
  have hwifi := h.2.2.2.2.2.2.2.2.2.2.1 rfl 3 "1".toList [] rfl
  have hbutton := h.2.2.2.2.2.2.2.2.2.2.2 rfl 4 "1".toList [] rfl
  rw [hboot, hwifi, hbutton]
  decide

theorem sendCmd_client {α : Type} (s : OpenEVSEClass) (command : CString)
    (completion : Option α) : (sendCmd s command completion).client = s := by
  unfold sendCmd
  split_ifs <;> rfl

/-- The event handler does not assign any data member. -/
theorem onEvent_client (s : OpenEVSEClass) (line : List CString) :
    match s.onEvent line with
    | EventResult.nullToken _ => True
    | EventResult.done step => step.client = s := by
  by_cases hs : s._sender = true
  swap
  · have hs0 : s._sender = false := by simpa using hs
    simp [OpenEVSEClass.onEvent, hs0]
  rcases line with _ | ⟨t0, tl⟩
  · simp [OpenEVSEClass.onEvent, readToken, hs]
  by_cases h1 : t0 = "$ST".toList
  · subst h1
    rcases tl with _ | ⟨t1, tl⟩ <;> simp [OpenEVSEClass.onEvent, readToken, hs]
  by_cases h2 : t0 = "$WF".toList
  · subst h2
    rcases tl with _ | ⟨t1, tl⟩ <;> simp [OpenEVSEClass.onEvent, readToken, hs]
  by_cases h3 : t0 = "$AT".toList
  · subst h3
    rcases tl with _ | ⟨t1, _ | ⟨t2, _ | ⟨t3, _ | ⟨t4, tl⟩⟩⟩⟩ <;>
      simp [OpenEVSEClass.onEvent, readToken, hs]
  by_cases h4 : t0 = "$AB".toList
  · subst h4
    rcases tl with _ | ⟨t1, tl⟩ <;> simp [OpenEVSEClass.onEvent, readToken, hs]
  by_cases h5 : t0 = "$AN".toList
  · subst h5
    rcases tl with _ | ⟨t1, tl⟩ <;> simp [OpenEVSEClass.onEvent, readToken, hs]
  have e1 : ¬ t0 = ['$', 'S', 'T'] := h1
  have e2 : ¬ t0 = ['$', 'W', 'F'] := h2
  have e3 : ¬ t0 = ['$', 'A', 'T'] := h3
  have e4 : ¬ t0 = ['$', 'A', 'B'] := h4
  have e5 : ¬ t0 = ['$', 'A', 'N'] := h5
  simp [OpenEVSEClass.onEvent, readToken, hs, e1, e2, e3, e4, e5]

/-- C23. Every operation other than `begin` (every query, every mutating
operation, each observer registration) and every incoming event line leaves
ConnectionState and the stored ProtocolVersion as they were, for every
client, completion code and token list. -/
theorem connection_state_frame (mktime : Tm → Int) (gmtime_r : Int → Tm) (s : OpenEVSEClass) :
    (∀ (r : Reply), (OpenEVSEClass.getVersion s r).client = s)
      ∧ (∀ (r : Reply), (OpenEVSEClass.getStatus s r).client = s)
      ∧ (∀ (r : Reply), (OpenEVSEClass.getTime mktime s r).client = s)
      ∧ (∀ (r : Reply), (OpenEVSEClass.getChargeCurrentAndVoltage s r).client = s)
      ∧ (∀ (r : Reply), (OpenEVSEClass.getTemperature s r).client = s)
      ∧ (∀ (r : Reply), (OpenEVSEClass.getEnergy s r).client = s)
      ∧ (∀ (r : Reply), (OpenEVSEClass.getFaultCounters s r).client = s)
      ∧ (∀ (r : Reply), (OpenEVSEClass.getSettings s r).client = s)
      ∧ (∀ (r : Reply), (OpenEVSEClass.getSerial s r).client = s)
      ∧ (∀ (r : Reply), (OpenEVSEClass.getCurrentCapacity s r).client = s)
      ∧ (∀ (r : Reply), (OpenEVSEClass.getAmmeterSettings s r).client = s)
      ∧ (∀ (r : Reply), (OpenEVSEClass.getTimer s r).client = s)
      ∧ (∀ (time : Int) (r : Reply), (OpenEVSEClass.setTime gmtime_r s time r).client = s)
      ∧ (∀ (time : Tm) (r : Reply), (OpenEVSEClass.setTime_tm s time r).client = s)
      ∧ (∀ (level : Nat) (r : Reply), (OpenEVSEClass.setServiceLevel s level r).client = s)
      ∧ (∀ (amps : Int) (save : Bool) (r : Reply), (OpenEVSEClass.setCurrentCapacity s amps save r).client = s)
      ∧ (∀ (scale offset : Int) (r : Reply), (OpenEVSEClass.setAmmeterSettings s scale offset r).client = s)
      ∧ (∀ (milliVolts : Nat) (r : Reply), (OpenEVSEClass.setVoltage s milliVolts r).client = s)
      ∧ (∀ (volts : ℚ) (r : Reply), (OpenEVSEClass.setVoltage_volts s volts r).client = s)
      ∧ (∀ (start_hour start_minute end_hour end_minute : Int) (r : Reply), (OpenEVSEClass.setTimer s start_hour start_minute end_hour end_minute r).client = s)
      ∧ (∀ (r : Reply), (OpenEVSEClass.clearTimer s r).client = s)
      ∧ (∀ (r : Reply), (OpenEVSEClass.enable s r).client = s)
      ∧ (∀ (r : Reply), (OpenEVSEClass.sleep s r).client = s)
      ∧ (∀ (r : Reply), (OpenEVSEClass.disable s r).client = s)
      ∧ (∀ (r : Reply), (OpenEVSEClass.restart s r).client = s)
      ∧ (∀ (r : Reply), (OpenEVSEClass.clearBootLock s r).client = s)
      ∧ (∀ (feature : Nat) (enable : Bool) (r : Reply), (OpenEVSEClass.feature s feature enable r).client = s)
      ∧ (∀ (enable : Bool) (r : Reply), (OpenEVSEClass.lcdEnable s enable r).client = s)
      ∧ (∀ (colour : Int) (r : Reply), (OpenEVSEClass.lcdSetColour s colour r).client = s)
      ∧ (∀ (x y : Int) (text : CString) (r : Reply), (OpenEVSEClass.lcdDisplayText s x y text r).client = s)
      ∧ (∀ (interval current : Int) (r : Reply), (OpenEVSEClass.heartbeatEnable s interval current r).client = s)
      ∧ (∀ (ack_missed : Bool) (r : Reply) (r2 : Reply), (OpenEVSEClass.heartbeatPulse s ack_missed r r2).client = s)
      ∧ (∀ cb : Option Nat, (s.onBoot cb)._connected = s._connected
          ∧ (s.onBoot cb)._protocol = s._protocol)
      ∧ (∀ cb : Option Nat, (s.onState cb)._connected = s._connected
          ∧ (s.onState cb)._protocol = s._protocol)
      ∧ (∀ cb : Option Nat, (s.onWiFi cb)._connected = s._connected
          ∧ (s.onWiFi cb)._protocol = s._protocol)
      ∧ (∀ cb : Option Nat, (s.onButton cb)._connected = s._connected
          ∧ (s.onButton cb)._protocol = s._protocol)
      ∧ (∀ (line : List CString) (step : Step ObserverCall),
          s.onEvent line = EventResult.done step → step.client = s) := by
  refine ⟨?_, ?_, ?_, ?_, ?_, ?_, ?_, ?_, ?_, ?_, ?_, ?_, ?_, ?_, ?_, ?_, ?_, ?_, ?_, ?_, ?_, ?_, ?_, ?_, ?_, ?_, ?_, ?_, ?_, ?_, ?_, ?_, ?_, ?_, ?_, ?_, ?_⟩
  · intros; simp [OpenEVSEClass.getVersion, sendCmd_client]
  · intros; simp [OpenEVSEClass.getStatus, sendCmd_client]
  · intros; simp [OpenEVSEClass.getTime, sendCmd_client]
  · intros; simp [OpenEVSEClass.getChargeCurrentAndVoltage, sendCmd_client]
  · intros; simp [OpenEVSEClass.getTemperature, sendCmd_client]
  · intros; simp [OpenEVSEClass.getEnergy, sendCmd_client]
  · intros; simp [OpenEVSEClass.getFaultCounters, sendCmd_client]
  · intros; simp [OpenEVSEClass.getSettings, sendCmd_client]
  · intros; simp [OpenEVSEClass.getSerial, sendCmd_client]
  · intros; simp [OpenEVSEClass.getCurrentCapacity, sendCmd_client]
  · intros; simp [OpenEVSEClass.getAmmeterSettings, sendCmd_client]
  · intros; simp [OpenEVSEClass.getTimer, sendCmd_client]
  · intros; simp [OpenEVSEClass.setTime, OpenEVSEClass.setTime_tm, sendCmd_client]
  · intros; simp [OpenEVSEClass.setTime_tm, sendCmd_client]
  · intros; simp [OpenEVSEClass.setServiceLevel, sendCmd_client]
  · intros; simp [OpenEVSEClass.setCurrentCapacity, sendCmd_client]
  · intros; simp [OpenEVSEClass.setAmmeterSettings, sendCmd_client]
  · intros; simp [OpenEVSEClass.setVoltage, sendCmd_client]
  · intros; simp [OpenEVSEClass.setVoltage_volts, OpenEVSEClass.setVoltage, sendCmd_client]
  · intros; simp [OpenEVSEClass.setTimer, sendCmd_client]
  · intros; simp [OpenEVSEClass.clearTimer, OpenEVSEClass.setTimer, sendCmd_client]
  · intros; simp [OpenEVSEClass.enable, sendCmd_client]
  · intros; simp [OpenEVSEClass.sleep, sendCmd_client]
  · intros; simp [OpenEVSEClass.disable, sendCmd_client]
  · intros; simp [OpenEVSEClass.restart, sendCmd_client]
  · intros; simp [OpenEVSEClass.clearBootLock, sendCmd_client]
  · intros; simp [OpenEVSEClass.feature, sendCmd_client]
  · intros; simp [OpenEVSEClass.lcdEnable, sendCmd_client]
  · intros; simp [OpenEVSEClass.lcdSetColour, sendCmd_client]
  · intros; simp [OpenEVSEClass.lcdDisplayText, sendCmd_client]
  · intros; simp [OpenEVSEClass.heartbeatEnable, sendCmd_client]
  · intro ack_missed r r2
    unfold OpenEVSEClass.heartbeatPulse
    split_ifs <;> rfl
  · intro cb; exact ⟨rfl, rfl⟩
  · intro cb; exact ⟨rfl, rfl⟩
  · intro cb; exact ⟨rfl, rfl⟩
  · intro cb; exact ⟨rfl, rfl⟩
  · intro line step hstep
    have h := onEvent_client s line
    rw [hstep] at h
    exact h

/-! ## Scaling, numeric bases, toggles -/

theorem scanDigits_toDigits (n : Nat) :
    scanDigits 10 0 false (Nat.toDigits 10 n) = (n, true, []) := by
  obtain ⟨k, hk⟩ := scanDigits_toDigitsCore (n + 1) n [] 0 false (by omega)
  rw [Nat.toDigits, hk]
  simp [scanDigits]

/-- A `strtol` call in base 10 reads the `%d` / `%ld` rendering of an integer in
the range of `long` back as that integer. -/
theorem strtol_fmtInt (n : Int) (hlo : -2147483648 ≤ n) (hhi : n ≤ 2147483647) :
    strtol (fmtInt n) 10 = n := by
  by_cases hneg : n < 0
  · have hf : fmtInt n = '-' :: Nat.toDigits 10 n.natAbs := by simp [fmtInt, hneg]
    have h1 : skipSpace ('-' :: Nat.toDigits 10 n.natAbs) = '-' :: Nat.toDigits 10 n.natAbs := by
      simp [skipSpace, isspace]
    have h2 : scanSign ('-' :: Nat.toDigits 10 n.natAbs) = (true, Nat.toDigits 10 n.natAbs) := by
      rfl
    have h3 : clampLong (-(n.natAbs : Int)) = n := by
      unfold clampLong LONG_MAX LONG_MIN
      have e : -(n.natAbs : Int) = n := by omega
      rw [e]
      have a1 : ¬ (n > 2147483647) := by omega
      have a2 : ¬ (n < -2147483648) := by omega
      simp [a1, a2]
    unfold strtol
    rw [hf, h1]
    simp only [h2, skipHexMarker_ten, scanDigits_toDigits, if_true]
    exact h3
  · have hf : fmtInt n = Nat.toDigits 10 n.toNat := by simp [fmtInt, hneg]
    rw [hf, strtol_toDigits, clampLong_of_le n.toNat (by omega)]
    omega

/-- C24. With a bound channel, for every OK reply with at least 3 tokens,
`getChargeCurrentAndVoltage` delivers amps = (token 1 in base 10) / 1000 and
volts = (token 2 in base 10) / 1000, and `getEnergy` delivers session Wh =
(token 1 in base 10) / 3600 and accumulated kWh = (token 2 in base 10) / 1000,
as exact rationals; when the tokens are the decimal renderings of integers
`a` and `b` in the range of `long`, negative ones included, the results are
`a / 1000`, `b / 1000` and `a / 3600`, `b / 1000`. -/
theorem unit_scaling (s : OpenEVSEClass) (t0 t1 t2 : CString) (rest : List CString)
    (hs : s._sender = true) :
    getChargeCurrentAndVoltage s ⟨OK, t0 :: t1 :: t2 :: rest⟩
        = some ⟨OK, (strtol t1 10 : ℚ) / 1000, (strtol t2 10 : ℚ) / 1000⟩
      ∧ getEnergy s ⟨OK, t0 :: t1 :: t2 :: rest⟩
        = some ⟨OK, (strtol t1 10 : ℚ) / 3600, (strtol t2 10 : ℚ) / 1000⟩
      ∧ ∀ a b : Int, -2147483648 ≤ a → a ≤ 2147483647 → -2147483648 ≤ b → b ≤ 2147483647 →
          getChargeCurrentAndVoltage s ⟨OK, t0 :: fmtInt a :: fmtInt b :: rest⟩
              = some ⟨OK, (a : ℚ) / 1000, (b : ℚ) / 1000⟩
            ∧ getEnergy s ⟨OK, t0 :: fmtInt a :: fmtInt b :: rest⟩
              = some ⟨OK, (a : ℚ) / 3600, (b : ℚ) / 1000⟩ := by
  have hg : ∀ u1 u2 : CString, getChargeCurrentAndVoltage s ⟨OK, t0 :: u1 :: u2 :: rest⟩
      = some ⟨OK, (strtol u1 10 : ℚ) / 1000, (strtol u2 10 : ℚ) / 1000⟩ := by
    intro u1 u2
    simp [getChargeCurrentAndVoltage, hs, Reply.getTokenCnt, tokenLong, Reply.getToken]
  have he : ∀ u1 u2 : CString, getEnergy s ⟨OK, t0 :: u1 :: u2 :: rest⟩
      = some ⟨OK, (strtol u1 10 : ℚ) / 3600, (strtol u2 10 : ℚ) / 1000⟩ := by
    intro u1 u2
    simp [getEnergy, hs, Reply.getTokenCnt, tokenLong, Reply.getToken]
  refine ⟨hg t1 t2, he t1 t2, ?_⟩
  intro a b ha1 ha2 hb1 hb2
  rw [hg, he, strtol_fmtInt a ha1 ha2, strtol_fmtInt b hb1 hb2]
  exact ⟨rfl, rfl⟩

/-- Witness of `unit_scaling`: a controller without ammeter reports -1
milliamps, with 240000 millivolts. -/
theorem unit_scaling_witness :
    getChargeCurrentAndVoltage ⟨true, true, 5000, none, none, none, none⟩
        ⟨OK, ["$OK".toList, fmtInt (-1), fmtInt 240000]⟩
      = some ⟨OK, ((-1 : Int) : ℚ) / 1000, ((240000 : Int) : ℚ) / 1000⟩ :=
  ((unit_scaling ⟨true, true, 5000, none, none, none, none⟩ "$OK".toList "0".toList
    "0".toList [] rfl).2.2 (-1) 240000 (by decide) (by decide) (by decide) (by decide)).1

/-- C25. With a bound channel, for every OK reply with enough tokens,
`getFaultCounters` reads tokens 1, 2 and 3 with `strtol` in base 16 (so the
token `10` is 16 and `ff` is 255), and `getSettings` reads token 1 (pilot
amps) in base 10 and token 2 (flags) in base 16. -/
theorem numeric_bases (s : OpenEVSEClass) (t0 t1 t2 t3 : CString) (rest : List CString)
    (hs : s._sender = true) :
    getFaultCounters s ⟨OK, t0 :: t1 :: t2 :: t3 :: rest⟩
        = some ⟨OK, strtol t1 16, strtol t2 16, strtol t3 16⟩
      ∧ getSettings s ⟨OK, t0 :: t1 :: t2 :: rest⟩
        = some ⟨OK, strtol t1 10, toUInt32 (strtol t2 16)⟩
      ∧ strtol "10".toList 16 = 16 ∧ strtol "ff".toList 16 = 255
      ∧ strtol "10".toList 10 = 10
      ∧ getFaultCounters s ⟨OK, t0 :: "10".toList :: "ff".toList :: "0".toList :: rest⟩
        = some ⟨OK, 16, 255, 0⟩
      ∧ getSettings s ⟨OK, t0 :: "10".toList :: "ff".toList :: rest⟩
        = some ⟨OK, 10, 255⟩ := by
  have hf : ∀ u1 u2 u3 : CString, getFaultCounters s ⟨OK, t0 :: u1 :: u2 :: u3 :: rest⟩
      = some ⟨OK, strtol u1 16, strtol u2 16, strtol u3 16⟩ := by
    intro u1 u2 u3
    simp [getFaultCounters, hs, Reply.getTokenCnt, tokenLong, Reply.getToken]
  have hg : ∀ u1 u2 : CString, getSettings s ⟨OK, t0 :: u1 :: u2 :: rest⟩
      = some ⟨OK, strtol u1 10, toUInt32 (strtol u2 16)⟩ := by
    intro u1 u2
    simp [getSettings, hs, Reply.getTokenCnt, tokenLong, Reply.getToken]
  have h16 : strtol "10".toList 16 = 16 := by decide
  have hff : strtol "ff".toList 16 = 255 := by decide
  have h10 : strtol "10".toList 10 = 10 := by decide
  have h0 : strtol "0".toList 16 = 0 := by decide
  refine ⟨hf t1 t2 t3, hg t1 t2, h16, hff, h10, ?_, ?_⟩
  · rw [hf, h16, hff, h0]
  · rw [hg, h10, hff]
    rfl

/-- Witness of `numeric_bases`: fault counters `0a 01 ff`. -/
theorem numeric_bases_witness :
    getFaultCounters ⟨true, true, 5000, none, none, none, none⟩
        ⟨OK, ["$OK".toList, "0a".toList, "01".toList, "ff".toList]⟩
      = some ⟨OK, 10, 1, 255⟩ := by
  have h := (numeric_bases ⟨true, true, 5000, none, none, none, none⟩ "$OK".toList "0a".toList
    "01".toList "ff".toList [] rfl).1
  rw [h]
  decide

/-- C26. With a bound channel, `enable` submits exactly `$FE`, `sleep`
exactly `$FS`, `disable` exactly `$FD` and `restart` exactly `$FR`, and each
delivers the result code of the completion to the callback unchanged, once,
whatever the code and the tokens. -/
theorem toggles (s : OpenEVSEClass) (r : Reply) (hs : s._sender = true) :
    s.enable r = ⟨s, ["$FE".toList], [r.ret]⟩
      ∧ s.sleep r = ⟨s, ["$FS".toList], [r.ret]⟩
      ∧ s.disable r = ⟨s, ["$FD".toList], [r.ret]⟩
      ∧ s.restart r = ⟨s, ["$FR".toList], [r.ret]⟩ := by
  simp [OpenEVSEClass.enable, OpenEVSEClass.sleep, OpenEVSEClass.disable,
    OpenEVSEClass.restart, sendCmd, forwardCompletion, hs]

/-- Witness of `toggles`: `disable` completed with NK. -/
theorem toggles_witness :
    OpenEVSEClass.disable ⟨true, true, 5000, none, none, none, none⟩ ⟨NK, ["$NK".toList]⟩
      = ⟨⟨true, true, 5000, none, none, none, none⟩, ["$FD".toList], [NK]⟩ :=
  (toggles ⟨true, true, 5000, none, none, none, none⟩ ⟨NK, ["$NK".toList]⟩ rfl).2.2.1

/-! ## The clock, short event lines, the Invalid state -/

/-- C27 (the code at the failing input). For 15 June 2021, 12:30:10
(`tm_year` 121, `tm_mon` 5), `setTime` submits `$S1 21 6 15 12 30 10`; when
these six numbers come back as the payload of an OK `getTime` reply, the
broken-down time handed to `mktime` has `tm_year` 121, `tm_mday` 15, `tm_hour`
12, `tm_min` 30 and `tm_sec` 10 as the original, but `tm_mon` 6 instead of 5. -/
theorem clock_round_trip_failing_input (mktime : Tm → Int) :
    (OpenEVSEClass.setTime_tm ⟨true, true, 5000, none, none, none, none⟩
        ⟨121, 5, 15, 12, 30, 10⟩ ⟨OK, ["$OK".toList]⟩).sent = ["$S1 21 6 15 12 30 10".toList]
      ∧ getTime mktime ⟨true, true, 5000, none, none, none, none⟩
          ⟨OK, ["$OK".toList, "21".toList, "6".toList, "15".toList, "12".toList, "30".toList,
            "10".toList]⟩
        = some ⟨OK, mktime ⟨121, 6, 15, 12, 30, 10⟩⟩
      ∧ (⟨121, 6, 15, 12, 30, 10⟩ : Tm) ≠ ⟨121, 5, 15, 12, 30, 10⟩ := by
  refine ⟨by decide, ?_, by decide⟩
  have h21 : strtol ['2', '1'] 10 = 21 := by decide
  have h6 : strtol ['6'] 10 = 6 := by decide
  have h15 : strtol ['1', '5'] 10 = 15 := by decide
  have h12 : strtol ['1', '2'] 10 = 12 := by decide
  have h30 : strtol ['3', '0'] 10 = 30 := by decide
  have h10 : strtol ['1', '0'] 10 = 10 := by decide
  simp [getTime, Reply.getTokenCnt, tokenLong, Reply.getToken, h21, h6, h15, h12, h30, h10]

/-- For every valid broken-down time of the years 2000 to 2099, the numbers
`setTime` writes, read back by `getTime`, give a broken-down time that
agrees with the original in every field except `tm_mon`, which is one more. -/
theorem getTime_after_setTime (mktime : Tm → Int) (s : OpenEVSEClass) (tm : Tm) (t0 : CString)
    (rest : List CString) (hs : s._sender = true)
    (hy : 100 ≤ tm.tm_year ∧ tm.tm_year ≤ 199) (hmo : 0 ≤ tm.tm_mon ∧ tm.tm_mon ≤ 11)
    (hd : 1 ≤ tm.tm_mday ∧ tm.tm_mday ≤ 31) (hh : 0 ≤ tm.tm_hour ∧ tm.tm_hour ≤ 23)
    (hmi : 0 ≤ tm.tm_min ∧ tm.tm_min ≤ 59) (hse : 0 ≤ tm.tm_sec ∧ tm.tm_sec ≤ 60) :
    getTime mktime s ⟨OK, t0 :: fmtInt (Int.tmod tm.tm_year 100) :: fmtInt (tm.tm_mon + 1)
        :: fmtInt tm.tm_mday :: fmtInt tm.tm_hour :: fmtInt tm.tm_min :: fmtInt tm.tm_sec
        :: rest⟩
      = some ⟨OK, mktime { tm with tm_mon := tm.tm_mon + 1 }⟩ := by
  have hyear : Int.tmod tm.tm_year 100 = tm.tm_year - 100 := by
    rw [Int.tmod_eq_emod (by omega) (by omega)]
    omega
  have e1 := strtol_fmtInt (tm.tm_year - 100) (by omega) (by omega)
  have e2 := strtol_fmtInt (tm.tm_mon + 1) (by omega) (by omega)
  have e3 := strtol_fmtInt tm.tm_mday (by omega) (by omega)
  have e4 := strtol_fmtInt tm.tm_hour (by omega) (by omega)
  have e5 := strtol_fmtInt tm.tm_min (by omega) (by omega)
  have e6 := strtol_fmtInt tm.tm_sec (by omega) (by omega)
  have n1 : (165 : Int) ≠ tm.tm_year - 100 := by omega
  have n2 : (165 : Int) ≠ tm.tm_mon + 1 := by omega
  have n3 : (165 : Int) ≠ tm.tm_mday := by omega
  have n4 : (165 : Int) ≠ tm.tm_hour := by omega
  have n5 : (165 : Int) ≠ tm.tm_min := by omega
  have n6 : (85 : Int) ≠ tm.tm_sec := by omega
  have hsum : 100 + (tm.tm_year - 100) = tm.tm_year := by omega
  simp only [getTime, hs, Reply.getTokenCnt, tokenLong, Reply.getToken, hyear]
  simp [e1, e2, e3, e4, e5, e6, n1, n2, n3, n4, n5, n6, hsum]

/-- C28 (the code at the failing input). With a bound channel, on the
one-token line `$ST` the event handler asks for token 1, which the line does
not have, and hands the `NULL` to `strtol`; on the three-token line
`$AT 03 03` it does the same with token 3. -/
theorem onEvent_short_line_failing_input :
    OpenEVSEClass.onEvent ⟨true, true, 5000, none, some 7, none, none⟩ ["$ST".toList]
        = EventResult.nullToken 1
      ∧ ¬ (1 < ["$ST".toList].length)
      ∧ OpenEVSEClass.onEvent ⟨true, true, 5000, none, some 7, none, none⟩
          ["$AT".toList, "03".toList, "03".toList] = EventResult.nullToken 3
      ∧ ¬ (3 < ["$AT".toList, "03".toList, "03".toList].length) := by
  decide

/-- C29 (the code at the failing input). `OPENEVSE_STATE_INVALID` converted to
`uint8_t` is 255, the code of `OPENEVSE_STATE_DISABLED`: it is one of the
defined state codes, `get_state_name` names it `Disabled`, and it is what
`getStatus` delivers as `pilot_state` below version 5.0.0 and what the
legacy state-change event delivers as `pilot_state`. -/
theorem invalid_state_failing_input :
    (toUInt8 OPENEVSE_STATE_INVALID : Int) = OPENEVSE_STATE_DISABLED
      ∧ (toUInt8 OPENEVSE_STATE_INVALID : Int) ∈ definedStates
      ∧ get_state_name (toUInt8 OPENEVSE_STATE_INVALID) = "Disabled"
      ∧ getStatus ⟨true, true, 1000, none, none, none, none⟩
          ⟨OK, ["$OK".toList, "3".toList, "1234".toList]⟩ = some ⟨OK, 3, 1234, 255, 0⟩
      ∧ OpenEVSEClass.onEvent ⟨true, true, 1000, none, some 7, none, none⟩
          ["$ST".toList, "03".toList]
        = EventResult.done ⟨⟨true, true, 1000, none, some 7, none, none⟩, [],
            [ObserverCall.state 7 3 255 0 0]⟩ := by
  decide

end OpenEVSE
